import Mathlib

/-!
Verification development for the StockPilot decision pipeline.

This file gives a shallow embedding, in Lean 4, of the core numeric components
of the repository:

* `src/simulation/demand_simulation.py` (`DemandSimulator`),
* `src/economics/cost_model.py` (`CostModel`),
* `src/inventory/risk_estimator.py` (`RiskEstimator`),
* `src/optimization/reorder_optimizer.py` (`ReorderOptimizer`),
* `src/optimization/capital_allocator.py` (`CapitalAllocator`),
* `src/models/demand_forecast.py` (`DemandForecaster`),
* `src/optimization/size_curve_optimizer.py` (`SizeCurveOptimizer.generate_valid_size_curves`),

and proves or refutes the behavioural claims made about these components.

Modelling conventions:

* Python floats are modelled as rationals (`ℚ`); the claims under study are
  order/arithmetic identities that hold in exact arithmetic.
* numpy's global pseudo-random source (`np.random`) is modelled as an abstract
  draw stream `g : ℕ → ℚ` together with a cursor `s : ℕ` counting how many
  draws have been consumed so far.  `np.random.seed(seed)` fixes the stream and
  resets the cursor to `0`; each sampling call reads `g s` and advances the
  cursor.  A draw of `np.random.normal(mean, std)` at cursor `s` is modelled as
  `mean + std * g s`, and `np.random.uniform(0, 1)` as `g s`.  This captures
  exactly what the determinism claims depend on: the sampled values are a
  deterministic function of the seed (the stream) and of how many draws were
  consumed before the call, and the cursor strictly advances with each draw.
* Python exceptions are modelled with `Except`: a raising call is a value
  `Except.error e`.
* `np.inf` appearing as a stored sentinel value is modelled with `WithTop ℚ`
  (for `optimal_loss`) and `Option ℚ` (for `expected_days_of_cover`, where
  `none` encodes `np.inf`); `-np.inf` propagating through `loss_avoided` is
  modelled with `WithBot ℚ`.
-/

namespace StockPilot

/-- Rounding as performed by Python's built-in `round` on a finite value:
round half to even (banker's rounding).  Used by
`ReorderOptimizer.find_feasible_order_quantities` (`round(q / order_multiple)`)
and by `SizeCurveOptimizer.generate_valid_size_curves`
(`int(round(total_units * size_distribution[size]))`). -/
def pyRound (x : ℚ) : ℤ :=
  let n := ⌊x⌋
  let r := x - n
  if r < 1 / 2 then n
  else if 1 / 2 < r then n + 1
  else if n % 2 = 0 then n else n + 1

/-- Arithmetic mean of a list, as computed by `np.mean`; for the empty list the
source produces NaN while this model produces `0` (division by zero in `ℚ`) —
all theorems below avoid the empty case. -/
def npMean (xs : List ℚ) : ℚ := xs.sum / xs.length

/-- Errors raised by the simulation stack (Python `ValueError`). -/
inductive SimError
  | leadTimeExceedsForecast
deriving Repr, DecidableEq

/-- One row of a forecast DataFrame as consumed by the simulator: the columns
`mean`, `std`, `p10`, `p50`, `p90` of `src/models/demand_forecast.py` output. -/
structure ForecastRow where
  mean : ℚ
  std : ℚ
  p10 : ℚ
  p50 : ℚ
  p90 : ℚ
deriving Repr, DecidableEq

/-- The `distribution_type` switch of `DemandSimulator.simulate_demand_path`. -/
inductive DistType
  | normal
  | quantile
deriving Repr, DecidableEq

/-- Abstract model of numpy's seeded global random stream: the value of the
`i`-th random draw after seeding. -/
def DrawStream : Type := ℕ → ℚ

/-- Configuration of a `DemandSimulator` instance
(`src/simulation/demand_simulation.py`, lines 24-34).  `np.random.seed` is
called at construction time; in this model the seed picks the draw stream `g`
and resets the global cursor to `0`; the cursor is threaded explicitly through
every sampling call. -/
structure SimConfig where
  n_simulations : ℕ
deriving Repr, DecidableEq

/-- One day's demand sample (`src/simulation/demand_simulation.py`, lines
61-89), consuming one draw.  `normal`: `max(0, np.random.normal(mean, std))`;
`quantile`: piecewise-linear quantile interpolation of a uniform draw `u`,
floored at 0. -/
def sampleDemand (g : DrawStream) (dist : DistType) (row : ForecastRow) (s : ℕ) : ℚ × ℕ :=
  match dist with
  | .normal => (max 0 (row.mean + row.std * g s), s + 1)
  | .quantile =>
    let u := g s
    let d :=
      if u < 1 / 10 then row.p10 * (u / (1 / 10))
      else if u < 1 / 2 then row.p10 + (row.p50 - row.p10) * ((u - 1 / 10) / (4 / 10))
      else if u < 9 / 10 then row.p50 + (row.p90 - row.p50) * ((u - 1 / 2) / (4 / 10))
      else row.p90 + (row.p90 - row.p50) * ((u - 9 / 10) / (1 / 10))
    (max 0 d, s + 1)

/-- Daily-demand loop of `simulate_demand_path` over the first `lead_time_days`
forecast rows (already truncated by the caller below). -/
def demandPathAux (g : DrawStream) (dist : DistType) : List ForecastRow → ℕ → List ℚ × ℕ
  | [], s => ([], s)
  | row :: rows, s =>
    let d := sampleDemand g dist row s
    let rest := demandPathAux g dist rows d.2
    (d.1 :: rest.1, rest.2)

/-- Embedding of `DemandSimulator.simulate_demand_path`
(`src/simulation/demand_simulation.py`, lines 36-93): raises when
`lead_time_days > len(forecast_df)`, otherwise samples one demand per
lead-time day. -/
def simulate_demand_path (g : DrawStream) (forecast : List ForecastRow)
    (lead_time_days : ℕ) (dist : DistType) (s : ℕ) :
    Except SimError (List ℚ × ℕ) :=
  if forecast.length < lead_time_days then .error .leadTimeExceedsForecast
  else .ok (demandPathAux g dist (forecast.take lead_time_days) s)

/-- Day-by-day depletion walk of one trial
(`src/simulation/demand_simulation.py`, lines 164-171): subtract each day's
demand, record the first 1-indexed day on which inventory is negative. -/
def depleteAux : ℚ → Option ℕ → ℕ → List ℚ → ℚ × Option ℕ
  | inv, so, _, [] => (inv, so)
  | inv, so, day, d :: ds =>
    let inv₁ := inv - d
    let so₁ := if inv₁ < 0 ∧ so = none then some (day + 1) else so
    depleteAux inv₁ so₁ (day + 1) ds

/-- Per-trial loop of `simulate_inventory_depletion`: each trial samples a
fresh demand path (advancing the shared draw cursor) and walks the depletion.
Returns, per trial, `(cumulative_demand, stockout_day, ending_inventory)`. -/
def runTrials (g : DrawStream) (dist : DistType) (rows : List ForecastRow) (inv₀ : ℚ) :
    ℕ → ℕ → List (ℚ × Option ℕ × ℚ) × ℕ
  | 0, s => ([], s)
  | n + 1, s =>
    let ds := demandPathAux g dist rows s
    let walk := depleteAux inv₀ none 0 ds.1
    let rest := runTrials g dist rows inv₀ n ds.2
    ((ds.1.sum, walk.2, walk.1) :: rest.1, rest.2)

/-- Output of one Monte Carlo run (`simulate_inventory_depletion` return
value): a SimulationBatch. -/
structure SimBatch where
  cumulative_demand : List ℚ
  stockout_days : List (Option ℕ)
  ending_inventory : List ℚ
  stockout_probability : ℚ
deriving Repr, DecidableEq

/-- Embedding of `DemandSimulator.simulate_inventory_depletion`
(`src/simulation/demand_simulation.py`, lines 133-185).  The guard of
`simulate_demand_path` is input-independent, so it is checked once up front
(in the source it fires on the first trial).  `stockout_probability` is the
fraction of trials with a recorded stockout day, the divisor being
`n_simulations`. -/
def simulate_inventory_depletion (g : DrawStream) (sim : SimConfig)
    (forecast : List ForecastRow) (current_inventory : ℚ) (lead_time_days : ℕ)
    (dist : DistType) (s : ℕ) : Except SimError (SimBatch × ℕ) :=
  if forecast.length < lead_time_days then .error .leadTimeExceedsForecast
  else
    let rows := forecast.take lead_time_days
    let (trials, s₁) := runTrials g dist rows current_inventory sim.n_simulations s
    .ok
      ({ cumulative_demand := trials.map (·.1)
         stockout_days := trials.map (·.2.1)
         ending_inventory := trials.map (·.2.2)
         stockout_probability :=
           (trials.countP (fun t => t.2.1 ≠ none) : ℚ) / (sim.n_simulations : ℚ) }, s₁)

/-- Configuration of a `CostModel` (`src/economics/cost_model.py`, lines
22-51).  The simulator attribute is passed separately as `SimConfig` in this
embedding; the source raises when it is `None`, a configuration never used by
the claims (`margin_rate` is computed in `__init__` but unused downstream). -/
structure CostModel where
  unit_cost : ℚ
  selling_price : ℚ
  holding_cost_rate : ℚ
  markdown_rate : ℚ
  churn_penalty : ℚ
deriving Repr, DecidableEq

/-- Derived margin `selling_price - unit_cost`
(`src/economics/cost_model.py`, line 50). -/
def CostModel.margin_per_unit (cm : CostModel) : ℚ := cm.selling_price - cm.unit_cost

/-- Embedding of `CostModel.compute_overstock_cost`
(`src/economics/cost_model.py`, lines 53-83). -/
def compute_overstock_cost (cm : CostModel) (excess_units holding_period_months : ℚ) : ℚ :=
  if excess_units ≤ 0 then 0
  else
    let cash_locked := excess_units * cm.unit_cost
    let holding_cost := cash_locked * cm.holding_cost_rate * holding_period_months
    let obsolete_units := excess_units * cm.markdown_rate
    let markdown_cost := obsolete_units * cm.unit_cost
    cash_locked + holding_cost + markdown_cost

/-- Embedding of `CostModel.compute_understock_cost`
(`src/economics/cost_model.py`, lines 85-117): lost margin plus a churn
penalty when a stockout event occurred (lost revenue is computed in the source
but deliberately not charged). -/
def compute_understock_cost (cm : CostModel) (unmet_demand : ℚ) (stockout_occurred : Bool) : ℚ :=
  if unmet_demand ≤ 0 then 0
  else
    let lost_margin := unmet_demand * cm.margin_per_unit
    let churn_cost := if stockout_occurred then cm.churn_penalty else 0
    lost_margin + churn_cost

/-- Return value of `compute_expected_economic_loss`. -/
structure LossResult where
  expected_overstock_cost : ℚ
  expected_understock_cost : ℚ
  total_expected_loss : ℚ
  expected_ending_inventory : ℚ
  expected_unmet_demand : ℚ
  stockout_probability : ℚ
deriving Repr, DecidableEq

/-- Per-trial cost classification of `compute_expected_economic_loss`
(`src/economics/cost_model.py`, lines 167-184): one post-reorder ending
inventory becomes `(overstock_cost, understock_cost, unmet_demand,
stockout_flag)`. -/
def trialCosts (cm : CostModel) (holding_period_months : ℚ) (endingInv : ℚ) :
    ℚ × ℚ × ℚ × Bool :=
  if 0 < endingInv then
    (compute_overstock_cost cm endingInv holding_period_months, 0, 0, false)
  else
    let unmet_demand := |endingInv|
    let stockout_occurred := decide (endingInv < 0)
    (0, compute_understock_cost cm unmet_demand stockout_occurred, unmet_demand,
      stockout_occurred)

/-- Embedding of `CostModel.compute_expected_economic_loss`
(`src/economics/cost_model.py`, lines 119-200): run a fresh simulation, shift
every trial's ending inventory by the reorder quantity, classify each trial as
pure overstock or pure understock, and average.  Note that the returned
`stockout_probability` is `np.mean(stockout_flags)` over the post-reorder
trials, not the simulation's own `stockout_probability`. -/
def compute_expected_economic_loss (g : DrawStream) (cm : CostModel) (sim : SimConfig)
    (forecast : List ForecastRow) (current_inventory reorder_quantity : ℚ)
    (lead_time_days : ℕ) (holding_period_months : ℚ) (dist : DistType) (s : ℕ) :
    Except SimError (LossResult × ℕ) :=
  match simulate_inventory_depletion g sim forecast current_inventory lead_time_days dist s with
  | .error e => .error e
  | .ok (batch, s₁) =>
    let after := batch.ending_inventory.map (· + reorder_quantity)
    let costs := after.map (trialCosts cm holding_period_months)
    .ok
      ({ expected_overstock_cost := npMean (costs.map (·.1))
         expected_understock_cost := npMean (costs.map (·.2.1))
         total_expected_loss :=
           npMean (costs.map (·.1)) + npMean (costs.map (·.2.1))
         expected_ending_inventory := npMean after
         expected_unmet_demand := npMean (costs.map (·.2.2.1))
         stockout_probability :=
           (costs.countP (fun c => c.2.2.2) : ℚ) / (costs.length : ℚ) }, s₁)

/-- Risk categories of `RiskEstimator._categorize_risk`
(`src/inventory/risk_estimator.py`, lines 83-101). -/
inductive RiskCategory
  | LOW
  | MEDIUM
  | HIGH
deriving Repr, DecidableEq

/-- Embedding of `RiskEstimator._categorize_risk`: LOW below 5%, MEDIUM below
20%, HIGH otherwise. -/
def categorize_risk (stockout_probability : ℚ) : RiskCategory :=
  if stockout_probability < 5 / 100 then .LOW
  else if stockout_probability < 20 / 100 then .MEDIUM
  else .HIGH

/-- Return value of `RiskEstimator.estimate_risk_with_reorder`;
`expected_days_of_cover = none` encodes the source's `np.inf`. -/
structure RiskResult where
  stockout_probability : ℚ
  risk_category : RiskCategory
  expected_ending_inventory : ℚ
  expected_days_of_cover : Option ℚ
  reorder_quantity : ℚ
deriving Repr, DecidableEq

/-- Embedding of `RiskEstimator.estimate_risk_with_reorder`
(`src/inventory/risk_estimator.py`, lines 103-157): run a fresh simulation,
shift ending inventories by the reorder quantity, and report the fraction of
trials still negative. -/
def estimate_risk_with_reorder (g : DrawStream) (sim : SimConfig)
    (forecast : List ForecastRow) (current_inventory reorder_quantity : ℚ)
    (lead_time_days : ℕ) (dist : DistType) (s : ℕ) :
    Except SimError (RiskResult × ℕ) :=
  match simulate_inventory_depletion g sim forecast current_inventory lead_time_days dist s with
  | .error e => .error e
  | .ok (batch, s₁) =>
    let after := batch.ending_inventory.map (· + reorder_quantity)
    let stockout_prob_after := (after.countP (fun e => e < 0) : ℚ) / (after.length : ℚ)
    let avg_daily_demand := npMean ((forecast.take lead_time_days).map (·.mean))
    let expected_ending_inventory := npMean after
    let expected_days_of_cover :=
      if 0 < avg_daily_demand then some (expected_ending_inventory / avg_daily_demand) else none
    .ok
      ({ stockout_probability := stockout_prob_after
         risk_category := categorize_risk stockout_prob_after
         expected_ending_inventory := expected_ending_inventory
         expected_days_of_cover := expected_days_of_cover
         reorder_quantity := reorder_quantity }, s₁)

/-- Configuration of a `ReorderOptimizer`
(`src/optimization/reorder_optimizer.py`, lines 22-38): its cost model, the
shared simulator (used by both the cost model and the risk estimator in the
repository's pipeline), and the risk ceiling (default `0.20`). -/
structure OptimizerConfig where
  cost_model : CostModel
  sim : SimConfig
  max_stockout_probability : ℚ
deriving Repr, DecidableEq

/-- Embedding of `ReorderOptimizer.find_feasible_order_quantities`
(`src/optimization/reorder_optimizer.py`, lines 40-80).  The `while` loop
visits `q = min + i * step` for as long as `q ≤ max'`; it does not terminate
for `step ≤ 0` with `min ≤ max'`, a configuration excluded here by producing
the empty grid (the default step is `10.0` and all theorems below assume
`0 < step`).  A cash cap tightens the upper bound to `cash / unit_cost`;
candidates are rounded to the nearest order multiple (Python `round`, half to
even), filtered to `[min, max']`, deduplicated and sorted. -/
def find_feasible_order_quantities (unit_cost : ℚ) (min_order_quantity max_order_quantity : ℚ)
    (order_multiple : ℚ) (available_cash : Option ℚ) (step_size : ℚ) : List ℚ :=
  let maxQ :=
    match available_cash with
    | none => max_order_quantity
    | some cash => min max_order_quantity (cash / unit_cost)
  let iterations : ℕ :=
    if maxQ < min_order_quantity ∨ step_size ≤ 0 then 0
    else (⌊(maxQ - min_order_quantity) / step_size⌋).toNat + 1
  let raw := (List.range iterations).filterMap fun i =>
    let q := min_order_quantity + (i : ℚ) * step_size
    let q_rounded := (pyRound (q / order_multiple) : ℚ) * order_multiple
    if min_order_quantity ≤ q_rounded ∧ q_rounded ≤ maxQ then some q_rounded else none
  (raw.dedup).mergeSort (· ≤ ·)

/-- One entry of `all_evaluations` in `optimize_reorder`
(`src/optimization/reorder_optimizer.py`, lines 168-177). -/
structure Evaluation where
  quantity : ℚ
  total_loss : ℚ
  overstock_cost : ℚ
  understock_cost : ℚ
  stockout_probability : ℚ
  risk_category : RiskCategory
  expected_ending_inventory : ℚ
  cash_locked : ℚ
deriving Repr, DecidableEq

/-- The `risk_metrics` sub-dictionary of an `optimize_reorder` result. -/
structure RiskMetrics where
  stockout_probability : ℚ
  risk_category : RiskCategory
  expected_ending_inventory : ℚ
deriving Repr, DecidableEq

/-- Return value of `optimize_reorder`.  The infeasible sentinel carries
`optimal_loss = ⊤` (the source's `np.inf`), `risk_metrics = none` and a
message; a successful result carries `cash_locked` and no message. -/
structure OptimizationResult where
  optimal_quantity : ℚ
  optimal_loss : WithTop ℚ
  risk_metrics : Option RiskMetrics
  all_evaluations : List Evaluation
  cash_locked : Option ℚ
  infeasible_message : Bool
deriving Repr, DecidableEq

/-- Sentinel result returned when no feasible quantities exist
(`src/optimization/reorder_optimizer.py`, lines 126-133): zero quantity,
infinite loss, no risk metrics, and the message
`'No feasible order quantities found'` (modelled as a flag). -/
def noFeasibleResult : OptimizationResult :=
  { optimal_quantity := 0
    optimal_loss := ⊤
    risk_metrics := none
    all_evaluations := []
    cash_locked := none
    infeasible_message := true }

/-- Per-candidate evaluation loop of `optimize_reorder`
(`src/optimization/reorder_optimizer.py`, lines 138-177): for each quantity,
one cost-model simulation then one risk-estimator simulation (each advancing
the draw cursor); a candidate whose stockout probability exceeds the ceiling
receives an additive penalty of ten times its expected loss. -/
def evalQuantities (g : DrawStream) (cfg : OptimizerConfig) (forecast : List ForecastRow)
    (current_inventory : ℚ) (lead_time_days : ℕ) (holding_period_months : ℚ)
    (dist : DistType) : List ℚ → ℕ → Except SimError (List Evaluation × ℕ)
  | [], s => .ok ([], s)
  | qty :: qs, s =>
    match compute_expected_economic_loss g cfg.cost_model cfg.sim forecast current_inventory
        qty lead_time_days holding_period_months dist s with
    | .error e => .error e
    | .ok (loss_result, s₁) =>
      match estimate_risk_with_reorder g cfg.sim forecast current_inventory qty
          lead_time_days dist s₁ with
      | .error e => .error e
      | .ok (risk_result, s₂) =>
        let stockout_prob := risk_result.stockout_probability
        let penalty :=
          if cfg.max_stockout_probability < stockout_prob then
            loss_result.total_expected_loss * 10
          else 0
        let e : Evaluation :=
          { quantity := qty
            total_loss := loss_result.total_expected_loss + penalty
            overstock_cost := loss_result.expected_overstock_cost
            understock_cost := loss_result.expected_understock_cost
            stockout_probability := stockout_prob
            risk_category := risk_result.risk_category
            expected_ending_inventory := loss_result.expected_ending_inventory
            cash_locked := qty * cfg.cost_model.unit_cost }
        match evalQuantities g cfg forecast current_inventory lead_time_days
            holding_period_months dist qs s₂ with
        | .error err => .error err
        | .ok (rest, s₃) => .ok (e :: rest, s₃)

/-- Embedding of `ReorderOptimizer.optimize_reorder`
(`src/optimization/reorder_optimizer.py`, lines 82-193): build the feasible
grid, return the sentinel when it is empty, otherwise evaluate every candidate,
stable-sort the evaluations by penalized loss (Python `sorted`; ties keep grid
order, so the smallest quantity among equal losses wins) and report the head.
The `[]` match arm after sorting is unreachable (a nonempty list sorts to a
nonempty list). -/
def optimize_reorder (g : DrawStream) (cfg : OptimizerConfig) (forecast : List ForecastRow)
    (current_inventory : ℚ) (lead_time_days : ℕ)
    (min_order_quantity max_order_quantity order_multiple : ℚ) (available_cash : Option ℚ)
    (holding_period_months : ℚ) (dist : DistType) (step_size : ℚ) (s : ℕ) :
    Except SimError (OptimizationResult × ℕ) :=
  let feasible_quantities :=
    find_feasible_order_quantities cfg.cost_model.unit_cost min_order_quantity
      max_order_quantity order_multiple available_cash step_size
  if feasible_quantities = [] then .ok (noFeasibleResult, s)
  else
    match evalQuantities g cfg forecast current_inventory lead_time_days
        holding_period_months dist feasible_quantities s with
    | .error e => .error e
    | .ok (evaluations, s₁) =>
      match evaluations.mergeSort (fun a b => a.total_loss ≤ b.total_loss) with
      | [] => .ok (noFeasibleResult, s₁)
      | optimal :: rest =>
        .ok
          ({ optimal_quantity := optimal.quantity
             optimal_loss := (optimal.total_loss : WithTop ℚ)
             risk_metrics :=
               some
                 { stockout_probability := optimal.stockout_probability
                   risk_category := optimal.risk_category
                   expected_ending_inventory := optimal.expected_ending_inventory }
             all_evaluations := optimal :: rest
             cash_locked := some optimal.cash_locked
             infeasible_message := false }, s₁)

/-- One entry of the `sku_data` list passed to the capital allocator
(`src/optimization/capital_allocator.py`, lines 119-165).  Optional entries
(`order_multiple`, `holding_period_months`, `distribution_type`) are read with
defaults by the source; here the caller supplies them explicitly. -/
structure SkuData where
  sku_id : String
  forecast : List ForecastRow
  current_inventory : ℚ
  lead_time_days : ℕ
  min_order_quantity : ℚ
  max_order_quantity : ℚ
  order_multiple : ℚ
  holding_period_months : ℚ
  distribution_type : DistType
deriving Repr, DecidableEq

/-- One ranking row as computed by
`CapitalAllocator.compute_loss_avoided_per_rupee`
(`src/optimization/capital_allocator.py`, lines 33-117).  `loss_avoided` is
`baseline_loss - optimal_loss`, which is `-inf` (here `⊥`) when the optimizer
returned its infinite-loss sentinel; `stockout_prob` is `none` exactly when
`risk_metrics` was `None` (where the source would raise a `TypeError`). -/
structure SkuMetrics where
  sku_id : String
  baseline_quantity : ℚ
  optimal_quantity : ℚ
  baseline_loss : ℚ
  optimal_loss : WithTop ℚ
  loss_avoided : WithBot ℚ
  baseline_cash : ℚ
  optimal_cash : ℚ
  incremental_cash : ℚ
  loss_avoided_per_rupee : WithBot ℚ
  stockout_prob : Option ℚ
deriving Repr, DecidableEq

/-- Subtraction `baseline_loss - optimal_loss` with the optimizer's `np.inf`
sentinel propagating to `-np.inf`. -/
def lossAvoidedOf (baseline_loss : ℚ) (optimal_loss : WithTop ℚ) : WithBot ℚ :=
  WithTop.recTopCoe ⊥ (fun v => ((baseline_loss - v : ℚ) : WithBot ℚ)) optimal_loss

/-- Ratio `loss_avoided / incremental_cash`, taken only when
`incremental_cash > 0` (else `0`), with `-np.inf` propagating
(`src/optimization/capital_allocator.py`, lines 100-103). -/
def lossAvoidedPerRupee (loss_avoided : WithBot ℚ) (incremental_cash : ℚ) : WithBot ℚ :=
  if 0 < incremental_cash then
    WithBot.recBotCoe ⊥ (fun v => ((v / incremental_cash : ℚ) : WithBot ℚ)) loss_avoided
  else 0

/-- Embedding of `CapitalAllocator.compute_loss_avoided_per_rupee`
(`src/optimization/capital_allocator.py`, lines 33-117): one unconstrained
optimizer run (cash `None`, default step `10.0`) followed by one cost-model
evaluation of the baseline quantity, both advancing the shared draw cursor. -/
def compute_loss_avoided_per_rupee (g : DrawStream) (cfg : OptimizerConfig) (d : SkuData)
    (baseline_quantity : ℚ) (s : ℕ) : Except SimError (SkuMetrics × ℕ) :=
  match optimize_reorder g cfg d.forecast d.current_inventory d.lead_time_days
      d.min_order_quantity d.max_order_quantity d.order_multiple none
      d.holding_period_months d.distribution_type 10 s with
  | .error e => .error e
  | .ok (optimal_result, s₁) =>
    match compute_expected_economic_loss g cfg.cost_model cfg.sim d.forecast
        d.current_inventory baseline_quantity d.lead_time_days d.holding_period_months
        d.distribution_type s₁ with
    | .error e => .error e
    | .ok (baseline_loss_result, s₂) =>
      let baseline_loss := baseline_loss_result.total_expected_loss
      let loss_avoided := lossAvoidedOf baseline_loss optimal_result.optimal_loss
      let optimal_cash := optimal_result.optimal_quantity * cfg.cost_model.unit_cost
      let baseline_cash := baseline_quantity * cfg.cost_model.unit_cost
      let incremental_cash := optimal_cash - baseline_cash
      .ok
        ({ sku_id := d.sku_id
           baseline_quantity := baseline_quantity
           optimal_quantity := optimal_result.optimal_quantity
           baseline_loss := baseline_loss
           optimal_loss := optimal_result.optimal_loss
           loss_avoided := loss_avoided
           baseline_cash := baseline_cash
           optimal_cash := optimal_cash
           incremental_cash := incremental_cash
           loss_avoided_per_rupee := lossAvoidedPerRupee loss_avoided incremental_cash
           stockout_prob := optimal_result.risk_metrics.map (·.stockout_probability) }, s₂)

/-- Per-SKU loop of `CapitalAllocator.rank_skus_by_efficiency`
(`src/optimization/capital_allocator.py`, lines 146-165); baselines default to
`0.0` for SKUs absent from `baseline_quantities`, modelled by the caller
supplying a total function. -/
def rankAux (g : DrawStream) (optimizers : String → OptimizerConfig)
    (baselines : String → ℚ) : List SkuData → ℕ → Except SimError (List SkuMetrics × ℕ)
  | [], s => .ok ([], s)
  | d :: ds, s =>
    match compute_loss_avoided_per_rupee g (optimizers d.sku_id) d (baselines d.sku_id) s with
    | .error e => .error e
    | .ok (m, s₁) =>
      match rankAux g optimizers baselines ds s₁ with
      | .error e => .error e
      | .ok (rest, s₂) => .ok (m :: rest, s₂)

/-- Embedding of `CapitalAllocator.rank_skus_by_efficiency`
(`src/optimization/capital_allocator.py`, lines 119-171): sort descending by
`loss_avoided_per_rupee`.  The source's `DataFrame.sort_values` uses an
unstable quicksort, so the order among ties is not specified; a stable merge
sort is one refinement of it (no claim below depends on tie order). -/
def rank_skus_by_efficiency (g : DrawStream) (optimizers : String → OptimizerConfig)
    (baselines : String → ℚ) (sku_data : List SkuData) (s : ℕ) :
    Except SimError (List SkuMetrics × ℕ) :=
  match rankAux g optimizers baselines sku_data s with
  | .error e => .error e
  | .ok (rankings, s₁) =>
    .ok (rankings.mergeSort (fun a b => b.loss_avoided_per_rupee ≤ a.loss_avoided_per_rupee), s₁)

/-- One funded (or zero-funded) entry of the returned `allocations` mapping. -/
structure SkuAllocation where
  quantity : ℚ
  cash : ℚ
  loss_avoided : WithBot ℚ
deriving Repr, DecidableEq

/-- Return value of `CapitalAllocator.allocate_capital`. -/
structure AllocationPlan where
  allocations : List (String × SkuAllocation)
  total_cash_used : ℚ
  remaining_cash : ℚ
  allocation_order : List String
  rankings : List SkuMetrics
deriving Repr, DecidableEq

/-- One step of the greedy walk of `allocate_capital`
(`src/optimization/capital_allocator.py`, lines 204-236): fund the optimal
quantity when cumulative spend plus the *incremental* cash fits (recording the
item's full `optimal_cash` in its allocation); else fund the baseline when
cumulative spend plus the baseline cash fits; else fund zero. -/
def greedyStep (total_available_cash : ℚ)
    (acc : List (String × SkuAllocation) × ℚ × List String) (row : SkuMetrics) :
    List (String × SkuAllocation) × ℚ × List String :=
  let (allocations, total_cash_used, allocation_order) := acc
  if total_cash_used + row.incremental_cash ≤ total_available_cash then
    (allocations ++
        [(row.sku_id,
          { quantity := row.optimal_quantity, cash := row.optimal_cash,
            loss_avoided := row.loss_avoided })],
      total_cash_used + row.incremental_cash, allocation_order ++ [row.sku_id])
  else if total_cash_used + row.baseline_cash ≤ total_available_cash then
    (allocations ++
        [(row.sku_id,
          { quantity := row.baseline_quantity, cash := row.baseline_cash,
            loss_avoided := (0 : WithBot ℚ) })],
      total_cash_used + row.baseline_cash, allocation_order ++ [row.sku_id])
  else
    (allocations ++
        [(row.sku_id, { quantity := 0, cash := 0, loss_avoided := (0 : WithBot ℚ) })],
      total_cash_used, allocation_order)

/-- Embedding of `CapitalAllocator.allocate_capital`
(`src/optimization/capital_allocator.py`, lines 173-244). -/
def allocate_capital (g : DrawStream) (optimizers : String → OptimizerConfig)
    (sku_data : List SkuData) (total_available_cash : ℚ) (baselines : String → ℚ)
    (s : ℕ) : Except SimError (AllocationPlan × ℕ) :=
  match rank_skus_by_efficiency g optimizers baselines sku_data s with
  | .error e => .error e
  | .ok (rankings, s₁) =>
    let walk := rankings.foldl (greedyStep total_available_cash) ([], 0, [])
    .ok
      ({ allocations := walk.1
         total_cash_used := walk.2.1
         remaining_cash := total_available_cash - walk.2.1
         allocation_order := walk.2.2
         rankings := rankings }, s₁)

/-- Feature row of `DemandForecaster._create_features`
(`src/models/demand_forecast.py`, lines 48-84), restricted to the columns that
can be NaN and therefore drive `dropna` in `_prepare_training_data`: the lag
features `lag_1/7/14/30` (`df['demand'].shift(k)`), which are NaN on the first
`k` rows.  The calendar features are never NaN, the rolling means use
`min_periods=1`, the rolling stds are `fillna(0)`, and `demand_trend_7` is a
difference of two `min_periods=1` rolling means, so none of those can be
dropped; they are omitted from this row type because they cannot affect the
row count. -/
structure FeatureRow where
  demand : ℚ
  lag_1 : Option ℚ
  lag_7 : Option ℚ
  lag_14 : Option ℚ
  lag_30 : Option ℚ
deriving Repr, DecidableEq

/-- Lag feature `df['demand'].shift(k)` at row `i`: NaN (`none`) for the first
`k` rows, the demand of row `i - k` afterwards. -/
def lagAt (demand : List ℚ) (k i : ℕ) : Option ℚ :=
  if k ≤ i then demand.get? (i - k) else none

/-- Embedding of `DemandForecaster._create_features` for an ordered,
date-deduplicated demand series (the source's sort by date is the identity on
such input). -/
def create_features (demand : List ℚ) : List FeatureRow :=
  (List.range demand.length).map fun i =>
    { demand := (demand.get? i).getD 0
      lag_1 := lagAt demand 1 i
      lag_7 := lagAt demand 7 i
      lag_14 := lagAt demand 14 i
      lag_30 := lagAt demand 30 i }

/-- Row filter of `_prepare_training_data`
(`src/models/demand_forecast.py`, lines 86-114): `dropna` keeps a row iff all
of its (potentially NaN) feature values are present. -/
def keptRows (rows : List FeatureRow) : List FeatureRow :=
  rows.filter fun r =>
    r.lag_1.isSome && r.lag_7.isSome && r.lag_14.isSome && r.lag_30.isSome

/-- Error raised by `DemandForecaster.train`, carrying the number of usable
training rows it found (the source's
`ValueError("Insufficient data for training. Need at least 30 samples, got {len(X)}")`). -/
inductive TrainError
  | insufficientData (got : ℕ)
deriving Repr, DecidableEq

/-- Embedding of the data-sufficiency guard of `DemandForecaster.train`
(`src/models/demand_forecast.py`, lines 116-149): build features, drop rows
with NaN lag features, and raise when fewer than 30 rows remain.  The
subsequent LightGBM fitting is external ML with no further input validation,
so training succeeds exactly when the guard passes. -/
def train (demand : List ℚ) : Except TrainError Unit :=
  let X := keptRows (create_features demand)
  if X.length < 30 then .error (.insufficientData X.length) else .ok ()

/-- The three trained quantile models used at forecast time
(`src/models/demand_forecast.py`: `self.models` with the default quantiles
`[0.1, 0.5, 0.9]`).  A LightGBM regressor is external ML; each model is
modelled as an abstract function of the inputs from which the source computes
its feature vector: the extended demand history (`df_extended['demand']`) and
the date.  Dates are abstracted to indices. -/
structure QuantileModels where
  m10 : List ℚ → ℕ → ℚ
  m50 : List ℚ → ℕ → ℚ
  m90 : List ℚ → ℕ → ℚ

/-- One output row of `DemandForecaster.forecast`. -/
structure ForecastOutRow where
  date : ℕ
  p10 : ℚ
  p50 : ℚ
  p90 : ℚ
  mean : ℚ
  std : ℚ
deriving Repr, DecidableEq

/-- One iteration of the forecast loop
(`src/models/demand_forecast.py`, lines 231-262): floor each quantile
prediction at 0, approximate `mean` by `p50` and `std` by `(p90 - p10)/2.56`
(falling back to `p50 * 0.2` when the spread is not positive), and append the
median prediction to the demand history as a proxy observation for the next
day. -/
def forecastStep (models : QuantileModels) (hist : List ℚ) (date : ℕ) :
    ForecastOutRow × List ℚ :=
  let p10 := max 0 (models.m10 hist date)
  let p50 := max 0 (models.m50 hist date)
  let p90 := max 0 (models.m90 hist date)
  let mean_demand := p50
  let std_demand := if 0 < p90 - p10 then (p90 - p10) / (256 / 100) else p50 * (2 / 10)
  ({ date := date, p10 := p10, p50 := p50, p90 := p90,
     mean := mean_demand, std := std_demand }, hist ++ [p50])

/-- Embedding of `DemandForecaster.forecast`
(`src/models/demand_forecast.py`, lines 151-264) for the default quantile
configuration, iterating `forecastStep` over the requested future dates. -/
def forecast (models : QuantileModels) : List ℕ → List ℚ → List ForecastOutRow
  | [], _ => []
  | date :: dates, hist =>
    let (row, hist₁) := forecastStep models hist date
    row :: forecast models dates hist₁

/-- Per-size quantity before reconciliation
(`src/optimization/size_curve_optimizer.py`, lines 82-87):
`int(round(total_units * share))`, floored to the order multiple when
`order_multiple > 1` (Python `//` is floor division), then clamped at 0. -/
def sizeQty (order_multiple : ℤ) (total_units : ℤ) (share : ℚ) : ℤ :=
  let q₀ := pyRound ((total_units : ℚ) * share)
  let q₁ := if 1 < order_multiple then (Int.fdiv q₀ order_multiple) * order_multiple else q₀
  max 0 q₁

/-- The size with the largest historical share:
`max(sizes, key=lambda s: size_distribution[s])`, which keeps the first
maximal entry in insertion order. -/
def largestKey : List (String × ℚ) → Option String
  | [] => none
  | (k, v) :: rest =>
    some (rest.foldl (fun acc p => if acc.2 < p.2 then p else acc) (k, v)).1

/-- Association-list lookup (first occurrence of the key), used only to state
properties of the generated curves. -/
def lookupAssoc : List (String × ℤ) → String → Option ℤ
  | [], _ => none
  | (k, v) :: rest, key => if k = key then some v else lookupAssoc rest key

/-- In-place update `curve[largest] = max(0, curve[largest] + diff)` on an
association list (first occurrence of the key). -/
def updateAssoc : List (String × ℤ) → String → ℤ → List (String × ℤ)
  | [], _, _ => []
  | (k, v) :: rest, key, diff =>
    if k = key then (k, max 0 (v + diff)) :: rest
    else (k, v) :: updateAssoc rest key diff

/-- Curve generated for one total quantity
(`src/optimization/size_curve_optimizer.py`, lines 74-97): allocate by share,
then reconcile the rounding remainder onto the largest-share size.  For an
empty distribution with a nonzero remainder the source's `max` raises; that
unreachable-for-nonempty-input case is modelled as the unmodified curve. -/
def genCurve (size_distribution : List (String × ℚ)) (order_multiple : ℤ)
    (total_units : ℤ) : List (String × ℤ) :=
  let curve₀ := size_distribution.map fun p => (p.1, sizeQty order_multiple total_units p.2)
  let allocated := (curve₀.map (·.2)).sum
  let diff := total_units - allocated
  if diff = 0 then curve₀
  else
    match largestKey size_distribution with
    | none => curve₀
    | some largest => updateAssoc curve₀ largest diff

/-- Embedding of `SizeCurveOptimizer.generate_valid_size_curves`
(`src/optimization/size_curve_optimizer.py`, lines 45-99).  The totals walk
`range(min_order_total, (max_order_total or min_order_total * 10) + 1,
order_multiple)` (so a `None` — or falsy `0` — cap defaults to ten times the
minimum); the loop's `break` can never fire because the range is already
bounded by the cap.  A non-positive step is a `range` error in the source and
yields the empty list here; every claim assumes `order_multiple ≥ 1`. -/
def generate_valid_size_curves (size_distribution : List (String × ℚ))
    (min_order_total : ℤ) (order_multiple : ℤ) (max_order_total : Option ℤ) :
    List (List (String × ℤ)) :=
  let hi :=
    match max_order_total with
    | none => min_order_total * 10
    | some v => if v = 0 then min_order_total * 10 else v
  let count : ℕ :=
    if order_multiple ≤ 0 then 0
    else if hi < min_order_total then 0
    else (Int.fdiv (hi - min_order_total) order_multiple).toNat + 1
  (List.range count).map fun k =>
    genCurve size_distribution order_multiple (min_order_total + (k : ℤ) * order_multiple)

/-! Concrete instances used by the counterexamples and witnesses below. -/

/-- Draw stream whose `i`-th draw is `i`; a generic position-dependent stream
(successive draws differ, as for any nondegenerate seeded generator). -/
def gId : DrawStream := fun n => (n : ℚ)

/-- Draw stream whose every draw is `0` (a degenerate stream; with it, every
normal sample equals the day's forecast mean). -/
def gZero : DrawStream := fun _ => 0

/-- One-day forecast with mean 5 and std 1, for the determinism
counterexample. -/
def rowC1 : ForecastRow := { mean := 5, std := 1, p10 := 0, p50 := 0, p90 := 0 }

/-- Batch produced by the first seeded call of the C1 witness run. -/
def c1FirstBatch : SimBatch :=
  { cumulative_demand := [5], stockout_days := [none], ending_inventory := [5],
    stockout_probability := 0 }

/-- Batch produced by the second call of the C1 witness run (on the constant
stream it coincides with the first batch; the witness derives this from the
determinism theorem rather than by computation). -/
def c1SecondBatch : SimBatch :=
  { cumulative_demand := [5], stockout_days := [none], ending_inventory := [5],
    stockout_probability := 0 }

/-- Cost model with unit cost 1, selling price 2 and no holding, markdown or
churn charges. -/
def cmUnit : CostModel :=
  { unit_cost := 1, selling_price := 2, holding_cost_rate := 0, markdown_rate := 0,
    churn_penalty := 0 }

/-- Optimizer over `cmUnit` with a single-trial simulator and the default
risk ceiling `0.20`. -/
def cfgUnit : OptimizerConfig :=
  { cost_model := cmUnit, sim := { n_simulations := 1 }, max_stockout_probability := 1 / 5 }

/-- One-day deterministic forecast of 100 units, used to force a guaranteed
stockout in the C3 run. -/
def forecastC3 : List ForecastRow := [{ mean := 100, std := 0, p10 := 0, p50 := 0, p90 := 0 }]

/-- The single evaluation entry produced by the C3 run: a candidate of 10
units against a certain demand of 100 from zero inventory, with stockout
probability 1 above the 0.20 ceiling; its recorded loss is 990 = 11 times its
unpenalized expected loss of 90. -/
def evalC3 : Evaluation :=
  { quantity := 10, total_loss := 990, overstock_cost := 0, understock_cost := 90,
    stockout_probability := 1, risk_category := .HIGH, expected_ending_inventory := -90,
    cash_locked := 10 }

/-- Full optimizer result of the C3 run. -/
def resC3 : OptimizationResult :=
  { optimal_quantity := 10, optimal_loss := (990 : ℚ),
    risk_metrics :=
      some { stockout_probability := 1, risk_category := .HIGH,
             expected_ending_inventory := -90 },
    all_evaluations := [evalC3], cash_locked := some 10, infeasible_message := false }

/-- SKU for the allocator counterexample: zero demand, zero inventory, an
optimizer grid pinned to 20 units, baseline 10 units. -/
def skuC2 : SkuData :=
  { sku_id := "A", forecast := [{ mean := 0, std := 0, p10 := 0, p50 := 0, p90 := 0 }],
    current_inventory := 0, lead_time_days := 1, min_order_quantity := 20,
    max_order_quantity := 20, order_multiple := 1, holding_period_months := 1,
    distribution_type := .normal }

/-- Allocation plan produced by the C2 run: the single SKU is funded fully;
`total_cash_used` records the incremental 10 while the allocation's `cash`
field records the gross 20, exceeding the budget of 10. -/
def planC2 : AllocationPlan :=
  { allocations :=
      [("A", { quantity := 20, cash := 20, loss_avoided := ((-10 : ℚ) : WithBot ℚ) })],
    total_cash_used := 10, remaining_cash := 0, allocation_order := ["A"],
    rankings :=
      [{ sku_id := "A", baseline_quantity := 10, optimal_quantity := 20,
         baseline_loss := 10, optimal_loss := (20 : ℚ),
         loss_avoided := ((-10 : ℚ) : WithBot ℚ), baseline_cash := 10, optimal_cash := 20,
         incremental_cash := 10, loss_avoided_per_rupee := ((-1 : ℚ) : WithBot ℚ),
         stockout_prob := some 0 }] }

/-- One-day deterministic forecast of 5 units for the C7 counterexample. -/
def forecastC7 : List ForecastRow := [{ mean := 5, std := 0, p10 := 0, p50 := 0, p90 := 0 }]

/-- Quantile models whose raw predictions cross: p10 above p50. -/
def modelsCross : QuantileModels :=
  { m10 := fun _ _ => 5, m50 := fun _ _ => 3, m90 := fun _ _ => 4 }

/-- Quantile models with pointwise ordered constant predictions. -/
def modelsMono : QuantileModels :=
  { m10 := fun _ _ => 1, m50 := fun _ _ => 2, m90 := fun _ _ => 3 }

/-- The forecast row produced by `modelsMono` on day 0:
`std = (3 - 1) / 2.56 = 25/32`. -/
def rowW : ForecastOutRow := { date := 0, p10 := 1, p50 := 2, p90 := 3, mean := 2, std := 25 / 32 }

/-- Size distribution of five sizes with equal 20% shares (sums to 1). -/
def dist5 : List (String × ℚ) :=
  [("s1", 1 / 5), ("s2", 1 / 5), ("s3", 1 / 5), ("s4", 1 / 5), ("s5", 1 / 5)]

/-- Two-size distribution (60% / 40%) for the C6 witness. -/
def distW : List (String × ℚ) := [("A", 3 / 5), ("B", 2 / 5)]

/-- Cost model whose selling price is below its unit cost (negative margin);
the spec notes this configuration is expected but not enforced. -/
def cmNegMargin : CostModel :=
  { unit_cost := 10, selling_price := 5, holding_cost_rate := 0, markdown_rate := 0,
    churn_penalty := 0 }

/-- Well-behaved cost model (non-negative rates, positive margin) for the C8
witness. -/
def cmGood : CostModel :=
  { unit_cost := 1, selling_price := 2, holding_cost_rate := 1 / 100,
    markdown_rate := 1 / 10, churn_penalty := 5 }

/-! ## Helper lemmas -/

/-- The lag feature at row `i` of an `n`-row series is present exactly when
`k ≤ i`. -/
theorem lagAt_isSome_of_lt (demand : List ℚ) (k i : ℕ) (hi : i < demand.length) :
    (lagAt demand k i).isSome = decide (k ≤ i) := by
  unfold lagAt
  by_cases hk : k ≤ i
  · rw [if_pos hk, List.get?_eq_get (show i - k < demand.length by omega)]
    simp [hk]
  · rw [if_neg hk]
    simp [hk]

/-- Counting the indices of `range n` that are at least `c`. -/
theorem countP_range_le (c n : ℕ) :
    (List.range n).countP (fun i => decide (c ≤ i)) = n - c := by
  induction n with
  | zero => simp
  | succ n ih =>
    rw [List.range_succ, List.countP_append, ih]
    by_cases hc : c ≤ n
    · simp only [List.countP_cons, List.countP_nil]
      rw [if_pos (by simpa using hc)]
      omega
    · simp only [List.countP_cons, List.countP_nil]
      rw [if_neg (by simpa using hc)]
      omega

/-- Row count surviving `dropna`: the 30 rows consumed by the longest lag are
dropped, everything else is kept. -/
theorem keptRows_length (demand : List ℚ) :
    (keptRows (create_features demand)).length = demand.length - 30 := by
  unfold keptRows create_features
  rw [List.filter_map, List.length_map, ← List.countP_eq_length_filter]
  rw [List.countP_congr (q := fun i => decide (30 ≤ i)) ?_]
  · exact countP_range_le 30 demand.length
  · intro i hi
    have hilt : i < demand.length := List.mem_range.mp hi
    simp only [Function.comp]
    rw [lagAt_isSome_of_lt demand 1 i hilt, lagAt_isSome_of_lt demand 7 i hilt,
      lagAt_isSome_of_lt demand 14 i hilt, lagAt_isSome_of_lt demand 30 i hilt]
    simp only [Bool.and_eq_true, decide_eq_true_eq]
    constructor
    · intro h
      omega
    · intro h
      omega

/-- Every sampled daily demand is floored at 0. -/
theorem sampleDemand_fst_nonneg (g : DrawStream) (dist : DistType) (row : ForecastRow)
    (s : ℕ) : 0 ≤ (sampleDemand g dist row s).1 := by
  cases dist
  · exact le_max_left 0 _
  · exact le_max_left 0 _

/-- Sampling advances the draw cursor by exactly one. -/
theorem sampleDemand_snd (g : DrawStream) (dist : DistType) (row : ForecastRow) (s : ℕ) :
    (sampleDemand g dist row s).2 = s + 1 := by
  cases dist
  · rfl
  · rfl

/-- Every demand of a sampled path is non-negative. -/
theorem demandPathAux_nonneg (g : DrawStream) (dist : DistType) :
    ∀ (rows : List ForecastRow) (s : ℕ), ∀ d ∈ (demandPathAux g dist rows s).1, 0 ≤ d := by
  intro rows
  induction rows with
  | nil =>
    intro s d hd
    simp [demandPathAux] at hd
  | cons row rows ih =>
    intro s d hd
    simp only [demandPathAux] at hd
    rcases List.mem_cons.mp hd with hd | hd
    · subst hd
      exact sampleDemand_fst_nonneg g dist row s
    · exact ih _ d hd

/-- A path has one demand per lead-time day. -/
theorem demandPathAux_length (g : DrawStream) (dist : DistType) :
    ∀ (rows : List ForecastRow) (s : ℕ), (demandPathAux g dist rows s).1.length = rows.length := by
  intro rows
  induction rows with
  | nil => intro s; rfl
  | cons row rows ih =>
    intro s
    simp only [demandPathAux, List.length_cons, ih]

/-- A path consumes one draw per lead-time day. -/
theorem demandPathAux_snd (g : DrawStream) (dist : DistType) :
    ∀ (rows : List ForecastRow) (s : ℕ), (demandPathAux g dist rows s).2 = s + rows.length := by
  intro rows
  induction rows with
  | nil => intro s; rfl
  | cons row rows ih =>
    intro s
    simp only [demandPathAux, ih, sampleDemand_snd, List.length_cons]
    omega

/-- The depletion walk ends at the start inventory minus the total demand. -/
theorem depleteAux_fst : ∀ (ds : List ℚ) (inv : ℚ) (so : Option ℕ) (day : ℕ),
    (depleteAux inv so day ds).1 = inv - ds.sum := by
  intro ds
  induction ds with
  | nil => intro inv so day; simp [depleteAux]
  | cons d ds ih =>
    intro inv so day
    simp only [depleteAux, ih, List.sum_cons]
    ring

/-- Once a stockout day is recorded it is never overwritten. -/
theorem depleteAux_some : ∀ (ds : List ℚ) (inv : ℚ) (a day : ℕ),
    (depleteAux inv (some a) day ds).2 = some a := by
  intro ds
  induction ds with
  | nil => intro inv a day; rfl
  | cons d ds ih =>
    intro inv a day
    simp only [depleteAux]
    rw [if_neg (by simp)]
    exact ih _ a _

/-- With non-negative demands, a stockout day is recorded exactly when the
walk ends negative — except for the empty walk started below zero, excluded by
the hypothesis. -/
theorem depleteAux_stockout_iff :
    ∀ (ds : List ℚ) (inv : ℚ) (day : ℕ), (∀ d ∈ ds, 0 ≤ d) → (0 ≤ inv ∨ ds ≠ []) →
      ((depleteAux inv none day ds).2 ≠ none ↔ (depleteAux inv none day ds).1 < 0) := by
  intro ds
  induction ds with
  | nil =>
    intro inv day hnn h
    rcases h with h0 | hne
    · simp only [depleteAux, ne_eq, not_true_eq_false, false_iff, not_lt]
      exact h0
    · exact absurd rfl hne
  | cons d ds ih =>
    intro inv day hnn h
    simp only [depleteAux]
    by_cases hlt : inv - d < 0
    · rw [if_pos ⟨hlt, trivial⟩]
      have hsum : 0 ≤ ds.sum := List.sum_nonneg fun x hx => hnn x (List.mem_cons_of_mem d hx)
      rw [depleteAux_some, depleteAux_fst]
      simp only [ne_eq, reduceCtorEq, not_false_eq_true, true_iff]
      linarith
    · rw [if_neg (by simp [hlt])]
      exact ih (inv - d) (day + 1) (fun x hx => hnn x (List.mem_cons_of_mem d hx))
        (Or.inl (by linarith [not_lt.mp hlt]))

/-- Sums of longer prefixes of a non-negative list dominate. -/
theorem take_sum_mono (ds : List ℚ) (hnn : ∀ d ∈ ds, 0 ≤ d) :
    Monotone fun k => (ds.take k).sum := by
  intro k₁ k₂ hk
  have hsplit : ds.take k₂ = ds.take k₁ ++ (ds.drop k₁).take (k₂ - k₁) := by
    rw [← List.take_add]
    congr 1
    omega
  have hnn₂ : 0 ≤ ((ds.drop k₁).take (k₂ - k₁)).sum :=
    List.sum_nonneg fun x hx => hnn x (List.drop_subset _ _ (List.take_subset _ _ hx))
  simp only [hsplit, List.sum_append]
  linarith

/-- One trial per simulation, in order. -/
theorem runTrials_length (g : DrawStream) (dist : DistType) (rows : List ForecastRow)
    (inv₀ : ℚ) : ∀ (n s : ℕ), (runTrials g dist rows inv₀ n s).1.length = n := by
  intro n
  induction n with
  | zero => intro s; rfl
  | succ n ih =>
    intro s
    simp only [runTrials, List.length_cons, ih]

/-- A Monte Carlo run consumes `n_simulations * lead_time_days` draws. -/
theorem runTrials_snd (g : DrawStream) (dist : DistType) (rows : List ForecastRow)
    (inv₀ : ℚ) : ∀ (n s : ℕ), (runTrials g dist rows inv₀ n s).2 = s + n * rows.length := by
  intro n
  induction n with
  | zero => intro s; simp [runTrials]
  | succ n ih =>
    intro s
    simp only [runTrials, ih, demandPathAux_snd, Nat.succ_mul]
    omega

/-- Per-trial stockout/ending-inventory relationship inside a run. -/
theorem runTrials_stockout_iff (g : DrawStream) (dist : DistType) (rows : List ForecastRow)
    (inv₀ : ℚ) (h : 0 ≤ inv₀ ∨ rows ≠ []) :
    ∀ (n s : ℕ), ∀ t ∈ (runTrials g dist rows inv₀ n s).1, (t.2.1 ≠ none ↔ t.2.2 < 0) := by
  intro n
  induction n with
  | zero =>
    intro s t ht
    simp [runTrials] at ht
  | succ n ih =>
    intro s t ht
    simp only [runTrials] at ht
    rcases List.mem_cons.mp ht with ht | ht
    · subst ht
      have hnn := demandPathAux_nonneg g dist rows s
      have hne : 0 ≤ inv₀ ∨ (demandPathAux g dist rows s).1 ≠ [] := by
        rcases h with h0 | hrows
        · exact Or.inl h0
        · refine Or.inr ?_
          have := demandPathAux_length g dist rows s
          intro hcon
          rw [hcon] at this
          exact hrows (List.eq_nil_of_length_eq_zero this.symm)
      exact depleteAux_stockout_iff _ inv₀ 0 hnn hne
    · exact ih _ t ht

/-- Specification of a successful `simulate_inventory_depletion` run: the
batch pairs stockout days with ending inventories trial by trial (the iff
needs non-negative starting inventory or a positive lead time), its
`stockout_probability` equals the fraction of trials ending negative, and it
has one ending inventory per simulation. -/
theorem simulate_ok_spec (g : DrawStream) (sim : SimConfig) (forecast : List ForecastRow)
    (inv : ℚ) (lead : ℕ) (dist : DistType) (s : ℕ) (batch : SimBatch) (s₁ : ℕ)
    (h2 : 0 ≤ inv ∨ 1 ≤ lead)
    (hok : simulate_inventory_depletion g sim forecast inv lead dist s = .ok (batch, s₁)) :
    (∀ p ∈ batch.stockout_days.zip batch.ending_inventory, (p.1 ≠ none ↔ p.2 < 0)) ∧
    batch.stockout_probability =
      ((batch.ending_inventory.countP fun e => e < 0 : ℕ) : ℚ) / (sim.n_simulations : ℚ) ∧
    batch.ending_inventory.length = sim.n_simulations := by
  rw [simulate_inventory_depletion] at hok
  split at hok
  · exact absurd hok (by simp)
  · rename_i hguard
    rw [Except.ok.injEq, Prod.mk.injEq] at hok
    obtain ⟨hbatch, hs⟩ := hok
    subst hbatch
    set rows := forecast.take lead with hrows
    have hlen : rows.length = lead := by
      rw [hrows, List.length_take]
      omega
    have hyp : 0 ≤ inv ∨ rows ≠ [] := by
      rcases h2 with h0 | hlead
      · exact Or.inl h0
      · refine Or.inr ?_
        intro hcon
        rw [hcon] at hlen
        simp at hlen
        omega
    have htrials := runTrials_stockout_iff g dist rows inv hyp sim.n_simulations s
    refine ⟨?_, ?_, ?_⟩
    · intro p hp
      simp only [List.zip_map'] at hp
      obtain ⟨t, ht, rfl⟩ := List.mem_map.mp hp
      exact htrials t ht
    · simp only [List.countP_map]
      congr 2
      refine List.countP_congr ?_
      intro t ht
      simp only [ne_eq, decide_not, Bool.not_eq_true', decide_eq_false_iff_not,
        Decidable.not_not, Function.comp]
      rw [← Decidable.not_not (p := t.2.1 = none), ← ne_eq, htrials t ht]
      simp
    · simp only [List.length_map]
      exact runTrials_length g dist rows inv sim.n_simulations s

/-! ## Claim C10 -/

/-- C10, counterexample: with a zero-day lead time and negative starting
inventory, the trial's ending inventory is negative yet no stockout day is
recorded (the depletion loop never runs), so the claimed equivalence between
recorded stockout days and negative ending inventory fails, and
`stockout_probability` is 0 while the fraction of trials with negative ending
inventory is 1. -/
theorem C10_counterexample :
    simulate_inventory_depletion gId { n_simulations := 1 } [] (-1) 0 .normal 0 =
      .ok ({ cumulative_demand := [0], stockout_days := [none], ending_inventory := [-1],
             stockout_probability := 0 }, 0) ∧
    ¬ (((none : Option ℕ) ≠ none) ↔ ((-1 : ℚ) < 0)) := by
  constructor
  · norm_num [simulate_inventory_depletion, runTrials, demandPathAux, depleteAux]
  · norm_num

/-- C10 (amended): every sampled daily demand is non-negative, so each trial's
inventory path is non-increasing over the lead time; and — provided the
current inventory is non-negative or the lead time is at least one day — a
stockout day is recorded for a trial exactly when that trial's ending
inventory is negative, and `stockout_probability` equals the fraction of
trials with negative ending inventory.  (With a zero-day lead time and
negative starting inventory the equivalence fails, as the counterexample
shows.) -/
theorem C10_depletion :
    (∀ (g : DrawStream) (dist : DistType) (rows : List ForecastRow) (s : ℕ),
        ∀ d ∈ (demandPathAux g dist rows s).1, 0 ≤ d) ∧
    (∀ (inv : ℚ) (ds : List ℚ), (∀ d ∈ ds, 0 ≤ d) →
        Antitone fun k => (depleteAux inv none 0 (ds.take k)).1) ∧
    (∀ (g : DrawStream) (sim : SimConfig) (forecast : List ForecastRow) (inv : ℚ)
        (lead : ℕ) (dist : DistType) (s : ℕ) (batch : SimBatch) (s₁ : ℕ),
        (0 ≤ inv ∨ 1 ≤ lead) →
        simulate_inventory_depletion g sim forecast inv lead dist s = .ok (batch, s₁) →
        (∀ p ∈ batch.stockout_days.zip batch.ending_inventory, (p.1 ≠ none ↔ p.2 < 0)) ∧
        batch.stockout_probability =
          ((batch.ending_inventory.countP fun e => e < 0 : ℕ) : ℚ) /
            (sim.n_simulations : ℚ)) := by
  refine ⟨demandPathAux_nonneg, ?_, ?_⟩
  · intro inv ds hnn k₁ k₂ hk
    simp only [depleteAux_fst]
    have := take_sum_mono ds hnn hk
    simp only at this
    linarith
  · intro g sim forecast inv lead dist s batch s₁ h2 hok
    exact ⟨(simulate_ok_spec g sim forecast inv lead dist s batch s₁ h2 hok).1,
      (simulate_ok_spec g sim forecast inv lead dist s batch s₁ h2 hok).2.1⟩

/-- C10, witness: a concrete run with non-negative starting inventory in which
the recorded stockout days match the negative ending inventories and the
probability equals the negative fraction. -/
theorem C10_witness :
    (∀ p ∈ ([none] : List (Option ℕ)).zip ([5] : List ℚ), (p.1 ≠ none ↔ p.2 < 0)) ∧
    (0 : ℚ) = ((([5] : List ℚ).countP fun e => e < 0 : ℕ) : ℚ) / ((1 : ℕ) : ℚ) := by
  have h := C10_depletion.2.2 gZero { n_simulations := 1 } [rowC1] 10 1 .normal 0
    { cumulative_demand := [5], stockout_days := [none], ending_inventory := [5],
      stockout_probability := 0 } 1 (Or.inl (by norm_num))
    (by norm_num [simulate_inventory_depletion, runTrials, demandPathAux, sampleDemand,
      depleteAux, rowC1, gZero])
  exact h

/-- The stockout probability returned by `compute_expected_economic_loss` is
the fraction of trials whose post-reorder ending inventory is negative. -/
theorem compute_loss_prob_spec (g : DrawStream) (cm : CostModel) (sim : SimConfig)
    (forecast : List ForecastRow) (inv q : ℚ) (lead : ℕ) (months : ℚ) (dist : DistType)
    (s : ℕ) (batch : SimBatch) (s₁ : ℕ) (lr : LossResult) (s₂ : ℕ)
    (hb : simulate_inventory_depletion g sim forecast inv lead dist s = .ok (batch, s₁))
    (hc : compute_expected_economic_loss g cm sim forecast inv q lead months dist s =
      .ok (lr, s₂)) :
    lr.stockout_probability =
      (((batch.ending_inventory.map (· + q)).countP fun e => e < 0 : ℕ) : ℚ) /
        ((batch.ending_inventory.map (· + q)).length : ℚ) := by
  rw [compute_expected_economic_loss, hb] at hc
  rw [Except.ok.injEq, Prod.mk.injEq] at hc
  obtain ⟨hlr, hs⟩ := hc
  subst hlr
  simp only [List.countP_map, List.length_map]
  congr 2
  refine List.countP_congr ?_
  intro e he
  simp only [Function.comp, trialCosts]
  by_cases hpos : 0 < e + q
  · rw [if_pos hpos]
    simp only [Bool.false_eq_true, false_iff, decide_eq_true_eq, not_lt]
    linarith
  · rw [if_neg hpos]

/-! ## Claim C7 -/

/-- C7, counterexample: one deterministic trial (demand 5 from zero
inventory), reorder quantity 10: the underlying simulation records a stockout
(probability 1), but `compute_expected_economic_loss` returns
stockout_probability 0 because it recomputes the flag on the post-reorder
ending inventory (−5 + 10 > 0) instead of forwarding the simulation's value. -/
theorem C7_counterexample :
    Except.map (fun p => p.1.stockout_probability)
        (compute_expected_economic_loss gZero cmUnit { n_simulations := 1 } forecastC7 0 10 1
          1 .normal 0) = .ok 0 ∧
    Except.map (fun p => p.1.stockout_probability)
        (simulate_inventory_depletion gZero { n_simulations := 1 } forecastC7 0 1 .normal 0) =
      .ok 1 ∧
    (0 : ℚ) ≠ 1 := by
  refine ⟨?_, ?_, by norm_num⟩
  · norm_num [compute_expected_economic_loss, simulate_inventory_depletion, runTrials,
      demandPathAux, sampleDemand, depleteAux, trialCosts, compute_overstock_cost,
      compute_understock_cost, CostModel.margin_per_unit, npMean, forecastC7, gZero, cmUnit,
      Except.map, List.countP_cons, List.countP_nil]
  · norm_num [simulate_inventory_depletion, runTrials, demandPathAux, sampleDemand,
      depleteAux, forecastC7, gZero, Except.map, List.countP_cons, List.countP_nil]
    all_goals simp

/-- C7 (amended): the `stockout_probability` returned by
`compute_expected_economic_loss` equals the fraction of simulation trials
whose ending inventory *plus the reorder quantity* is negative — not the
simulation's own stockout probability.  The two coincide when
`reorder_quantity = 0` (and the starting inventory is non-negative or the lead
time is at least one day). -/
theorem C7_stockout_prob :
    (∀ (g : DrawStream) (cm : CostModel) (sim : SimConfig) (forecast : List ForecastRow)
        (inv q : ℚ) (lead : ℕ) (months : ℚ) (dist : DistType) (s : ℕ) (batch : SimBatch)
        (s₁ : ℕ) (lr : LossResult) (s₂ : ℕ),
        simulate_inventory_depletion g sim forecast inv lead dist s = .ok (batch, s₁) →
        compute_expected_economic_loss g cm sim forecast inv q lead months dist s =
          .ok (lr, s₂) →
        lr.stockout_probability =
          (((batch.ending_inventory.map (· + q)).countP fun e => e < 0 : ℕ) : ℚ) /
            ((batch.ending_inventory.map (· + q)).length : ℚ)) ∧
    (∀ (g : DrawStream) (cm : CostModel) (sim : SimConfig) (forecast : List ForecastRow)
        (inv : ℚ) (lead : ℕ) (months : ℚ) (dist : DistType) (s : ℕ) (batch : SimBatch)
        (s₁ : ℕ) (lr : LossResult) (s₂ : ℕ),
        (0 ≤ inv ∨ 1 ≤ lead) →
        simulate_inventory_depletion g sim forecast inv lead dist s = .ok (batch, s₁) →
        compute_expected_economic_loss g cm sim forecast inv 0 lead months dist s =
          .ok (lr, s₂) →
        lr.stockout_probability = batch.stockout_probability) := by
  constructor
  · exact compute_loss_prob_spec
  · intro g cm sim forecast inv lead months dist s batch s₁ lr s₂ h2 hb hc
    have h1 := compute_loss_prob_spec g cm sim forecast inv 0 lead months dist s batch s₁
      lr s₂ hb hc
    have hspec := simulate_ok_spec g sim forecast inv lead dist s batch s₁ h2 hb
    rw [h1, hspec.2.1]
    simp only [add_zero, List.map_id']
    rw [hspec.2.2]

/-- C7, witness: with reorder quantity 0 on a non-negative-inventory run, the
cost model's stockout probability equals the simulation's. -/
theorem C7_witness :
    LossResult.stockout_probability
        { expected_overstock_cost := 0, expected_understock_cost := 5,
          total_expected_loss := 5, expected_ending_inventory := -5,
          expected_unmet_demand := 5, stockout_probability := 1 } =
      SimBatch.stockout_probability
        { cumulative_demand := [5], stockout_days := [some 1], ending_inventory := [-5],
          stockout_probability := 1 } := by
  have h := C7_stockout_prob.2 gZero cmUnit { n_simulations := 1 } forecastC7 0 1 1 .normal 0
    { cumulative_demand := [5], stockout_days := [some 1], ending_inventory := [-5],
      stockout_probability := 1 } 1
    { expected_overstock_cost := 0, expected_understock_cost := 5, total_expected_loss := 5,
      expected_ending_inventory := -5, expected_unmet_demand := 5, stockout_probability := 1 }
    1 (Or.inl le_rfl)
    (by
      norm_num [simulate_inventory_depletion, runTrials, demandPathAux, sampleDemand,
        depleteAux, forecastC7, gZero, List.countP_cons, List.countP_nil]
      simp)
    (by norm_num [compute_expected_economic_loss, simulate_inventory_depletion, runTrials,
      demandPathAux, sampleDemand, depleteAux, trialCosts, compute_overstock_cost,
      compute_understock_cost, CostModel.margin_per_unit, npMean, forecastC7, gZero, cmUnit,
      List.countP_cons, List.countP_nil])
  exact h

/-! ## Claim C4 -/

/-- C4, counterexample: an ordered series with exactly 30 observations makes
`DemandForecaster.train` raise its insufficient-data error (all 30 rows are
consumed by the 30-day lag feature, leaving 0 usable training rows), although
the claim says any series with at least 30 observations trains
successfully. -/
theorem C4_counterexample :
    30 ≤ (List.replicate 30 (1 : ℚ)).length ∧
      train (List.replicate 30 (1 : ℚ)) = .error (.insufficientData 0) := by
  constructor
  · simp
  · rfl

/-- C4 (amended): `DemandForecaster.train` raises its insufficient-data error
if and only if the historical series has fewer than 60 observations — the
guard requires 30 usable training rows after the 30 rows consumed by the
`lag_30` feature are dropped; with at least 60 observations training
succeeds. -/
theorem C4_min_history (demand : List ℚ) :
    train demand = .ok () ↔ 60 ≤ demand.length := by
  have hX := keptRows_length demand
  simp only [train, hX]
  split
  · rename_i h
    simp only [reduceCtorEq, false_iff]
    omega
  · rename_i h
    simp only [true_iff]
    omega

/-- C4, witness: a 60-observation series trains successfully. -/
theorem C4_witness : train (List.replicate 60 (1 : ℚ)) = .ok () :=
  (C4_min_history (List.replicate 60 (1 : ℚ))).mpr (by simp)

/-! ## Claim C5 -/

/-- C5, counterexample: with trained quantile models whose raw predictions
cross (constant predictions 5, 3, 4 for the 0.1, 0.5, 0.9 quantiles),
`DemandForecaster.forecast` emits a row with `p10 = 5 > 3 = p50`: the code
floors each quantile at 0 but never enforces `p10 ≤ p50 ≤ p90` across the
independently trained models. -/
theorem C5_counterexample :
    ¬ (∀ r ∈ forecast modelsCross [0] [], r.p10 ≤ r.p50 ∧ r.p50 ≤ r.p90) := by
  intro h
  have hmem := h ((forecast modelsCross [0] []).head (by norm_num [forecast, forecastStep]))
    (by simp [forecast, forecastStep])
  norm_num [forecast, forecastStep, modelsCross] at hmem

/-- C5 (amended): every row produced by `DemandForecaster.forecast` has
`p10, p50, p90 ≥ 0` (each is floored at 0), and the ordering
`p10 ≤ p50 ≤ p90` holds for every produced row whenever the underlying
per-quantile model predictions are pointwise ordered — the code itself does
not enforce that ordering. -/
theorem C5_quantile_order :
    (∀ (models : QuantileModels) (dates : List ℕ) (hist : List ℚ),
        ∀ r ∈ forecast models dates hist, 0 ≤ r.p10 ∧ 0 ≤ r.p50 ∧ 0 ≤ r.p90) ∧
    (∀ models : QuantileModels,
        (∀ (h : List ℚ) (d : ℕ),
            models.m10 h d ≤ models.m50 h d ∧ models.m50 h d ≤ models.m90 h d) →
        ∀ (dates : List ℕ) (hist : List ℚ),
          ∀ r ∈ forecast models dates hist, r.p10 ≤ r.p50 ∧ r.p50 ≤ r.p90) := by
  constructor
  · intro models dates
    induction dates with
    | nil =>
      intro hist r hr
      simp [forecast] at hr
    | cons d ds ih =>
      intro hist r hr
      simp only [forecast] at hr
      rcases List.mem_cons.mp hr with hr | hr
      · subst hr
        refine ⟨le_max_left 0 _, le_max_left 0 _, le_max_left 0 _⟩
      · exact ih _ r hr
  · intro models hord dates
    induction dates with
    | nil =>
      intro hist r hr
      simp [forecast] at hr
    | cons d ds ih =>
      intro hist r hr
      simp only [forecast] at hr
      rcases List.mem_cons.mp hr with hr | hr
      · subst hr
        exact ⟨max_le_max le_rfl (hord hist d).1, max_le_max le_rfl (hord hist d).2⟩
      · exact ih _ r hr

/-- C5, witness: with pointwise ordered constant models the produced row is
ordered. -/
theorem C5_witness : rowW.p10 ≤ rowW.p50 ∧ rowW.p50 ≤ rowW.p90 :=
  C5_quantile_order.2 modelsMono
    (fun h d => ⟨by norm_num [modelsMono], by norm_num [modelsMono]⟩) [0] [] rowW
    (by norm_num [forecast, forecastStep, modelsMono, rowW])

/-! ## Claim C8 -/

/-- C8, counterexample: with a configuration whose selling price is below its
unit cost (accepted by the constructor; the spec itself notes this is "not
enforced"), the understock cost is strictly decreasing: moving unmet demand
from 0 to 1 drops the cost from 0 to -5, refuting "non-decreasing for every
CostModel configuration". -/
theorem C8_counterexample :
    (0 : ℚ) ≤ 1 ∧
      compute_understock_cost cmNegMargin 1 false < compute_understock_cost cmNegMargin 0 false := by
  norm_num [compute_understock_cost, cmNegMargin, CostModel.margin_per_unit]

/-- C8 (amended): for every cost-model configuration with non-negative unit
cost, holding rate, markdown rate and churn penalty, a margin that is not
negative (`unit_cost ≤ selling_price`) and a non-negative holding period,
`compute_overstock_cost` is non-decreasing in `excess_units`,
`compute_understock_cost` is non-decreasing in `unmet_demand` (for either
value of the stockout flag), and both vanish at a zero quantity
(the zero boundary needs no hypotheses). -/
theorem C8_cost_monotone (cm : CostModel) (months : ℚ)
    (hu : 0 ≤ cm.unit_cost) (hh : 0 ≤ cm.holding_cost_rate) (hmk : 0 ≤ cm.markdown_rate)
    (hmar : cm.unit_cost ≤ cm.selling_price) (hc : 0 ≤ cm.churn_penalty) (hmo : 0 ≤ months) :
    (∀ e₁ e₂ : ℚ, e₁ ≤ e₂ →
        compute_overstock_cost cm e₁ months ≤ compute_overstock_cost cm e₂ months) ∧
    (∀ (b : Bool) (u₁ u₂ : ℚ), u₁ ≤ u₂ →
        compute_understock_cost cm u₁ b ≤ compute_understock_cost cm u₂ b) ∧
    compute_overstock_cost cm 0 months = 0 ∧
    (∀ b : Bool, compute_understock_cost cm 0 b = 0) := by
  have hmargin : 0 ≤ cm.margin_per_unit := by
    unfold CostModel.margin_per_unit
    linarith
  refine ⟨?_, ?_, ?_, ?_⟩
  · intro e₁ e₂ h
    simp only [compute_overstock_cost]
    by_cases h₂ : e₂ ≤ 0
    · rw [if_pos (le_trans h h₂), if_pos h₂]
    · rw [if_neg h₂]
      have he₂ : 0 < e₂ := lt_of_not_le h₂
      by_cases h₁ : e₁ ≤ 0
      · rw [if_pos h₁]
        have t₁ : 0 ≤ e₂ * cm.unit_cost := mul_nonneg he₂.le hu
        have t₂ : 0 ≤ e₂ * cm.unit_cost * cm.holding_cost_rate * months :=
          mul_nonneg (mul_nonneg t₁ hh) hmo
        have t₃ : 0 ≤ e₂ * cm.markdown_rate * cm.unit_cost :=
          mul_nonneg (mul_nonneg he₂.le hmk) hu
        linarith
      · rw [if_neg h₁]
        have hd : 0 ≤ e₂ - e₁ := by linarith
        have t₁ : 0 ≤ (e₂ - e₁) * cm.unit_cost := mul_nonneg hd hu
        have t₂ : 0 ≤ (e₂ - e₁) * cm.unit_cost * cm.holding_cost_rate * months :=
          mul_nonneg (mul_nonneg t₁ hh) hmo
        have t₃ : 0 ≤ (e₂ - e₁) * cm.markdown_rate * cm.unit_cost :=
          mul_nonneg (mul_nonneg hd hmk) hu
        nlinarith
  · intro b u₁ u₂ h
    simp only [compute_understock_cost]
    by_cases h₂ : u₂ ≤ 0
    · rw [if_pos (le_trans h h₂), if_pos h₂]
    · rw [if_neg h₂]
      have hu₂ : 0 < u₂ := lt_of_not_le h₂
      have hchurn : 0 ≤ (if b then cm.churn_penalty else 0) := by
        cases b
        · simp
        · simpa using hc
      by_cases h₁ : u₁ ≤ 0
      · rw [if_pos h₁]
        have : 0 ≤ u₂ * cm.margin_per_unit := mul_nonneg hu₂.le hmargin
        linarith
      · rw [if_neg h₁]
        have : u₁ * cm.margin_per_unit ≤ u₂ * cm.margin_per_unit :=
          mul_le_mul_of_nonneg_right h hmargin
        linarith
  · simp only [compute_overstock_cost]
    rw [if_pos le_rfl]
  · intro b
    simp only [compute_understock_cost]
    rw [if_pos le_rfl]

/-- C8, witness: on a well-behaved configuration both cost functions are
monotone at concrete points and vanish at zero. -/
theorem C8_witness :
    compute_overstock_cost cmGood 0 1 ≤ compute_overstock_cost cmGood 2 1 ∧
      compute_understock_cost cmGood 1 true ≤ compute_understock_cost cmGood 3 true ∧
      compute_overstock_cost cmGood 0 1 = 0 ∧ compute_understock_cost cmGood 0 false = 0 :=
  ⟨(C8_cost_monotone cmGood 1 (by norm_num [cmGood]) (by norm_num [cmGood])
      (by norm_num [cmGood]) (by norm_num [cmGood]) (by norm_num [cmGood]) (by norm_num)).1
      0 2 (by norm_num),
   (C8_cost_monotone cmGood 1 (by norm_num [cmGood]) (by norm_num [cmGood])
      (by norm_num [cmGood]) (by norm_num [cmGood]) (by norm_num [cmGood]) (by norm_num)).2.1
      true 1 3 (by norm_num),
   (C8_cost_monotone cmGood 1 (by norm_num [cmGood]) (by norm_num [cmGood])
      (by norm_num [cmGood]) (by norm_num [cmGood]) (by norm_num [cmGood]) (by norm_num)).2.2.1,
   (C8_cost_monotone cmGood 1 (by norm_num [cmGood]) (by norm_num [cmGood])
      (by norm_num [cmGood]) (by norm_num [cmGood]) (by norm_num [cmGood])
      (by norm_num)).2.2.2 false⟩

/-! ## Claim C9 -/

/-- C9 (confirmed): whenever the feasible-quantity grid is empty,
`ReorderOptimizer.optimize_reorder` returns (rather than raises) the sentinel
result with `optimal_quantity = 0` and infinite `optimal_loss`; and a cash cap
below `min_order_quantity * unit_cost` (with positive unit cost and step)
makes the grid empty. -/
theorem C9_sentinel :
    (∀ (g : DrawStream) (cfg : OptimizerConfig) (forecast : List ForecastRow)
        (inv : ℚ) (lead : ℕ) (minQ maxQ mult : ℚ) (cash : Option ℚ) (months : ℚ)
        (dist : DistType) (step : ℚ) (s : ℕ),
        find_feasible_order_quantities cfg.cost_model.unit_cost minQ maxQ mult cash step = [] →
        optimize_reorder g cfg forecast inv lead minQ maxQ mult cash months dist step s =
          .ok (noFeasibleResult, s)) ∧
    (∀ uc minQ maxQ mult cash step : ℚ, 0 < uc → cash < minQ * uc → 0 < step →
        find_feasible_order_quantities uc minQ maxQ mult (some cash) step = []) := by
  constructor
  · intro g cfg forecast inv lead minQ maxQ mult cash months dist step s h
    simp only [optimize_reorder, h, if_pos]
  · intro uc minQ maxQ mult cash step huc hcash hstep
    have hlt : min maxQ (cash / uc) < minQ :=
      lt_of_le_of_lt (min_le_right _ _) ((div_lt_iff₀ huc).mpr hcash)
    simp [find_feasible_order_quantities, hlt]

/-- C9, witness: a cash cap of 5 against `min_order_quantity = 10` at unit
cost 1 yields the empty grid and the zero-quantity, infinite-loss sentinel. -/
theorem C9_witness :
    optimize_reorder gZero cfgUnit [] 0 0 10 10000 1 (some 5) 1 .normal 10 0 =
      .ok (noFeasibleResult, 0) ∧
    find_feasible_order_quantities 1 10 10000 1 (some 5) 10 = [] :=
  ⟨C9_sentinel.1 gZero cfgUnit [] 0 0 10 10000 1 (some 5) 1 .normal 10 0
      (C9_sentinel.2 1 10 10000 1 5 10 (by norm_num) (by norm_num) (by norm_num)),
   C9_sentinel.2 1 10 10000 1 5 10 (by norm_num) (by norm_num) (by norm_num)⟩

/-- A successful `compute_expected_economic_loss` reports a total loss that is
the sum of its overstock and understock components. -/
theorem compute_loss_total_eq (g : DrawStream) (cm : CostModel) (sim : SimConfig)
    (forecast : List ForecastRow) (inv q : ℚ) (lead : ℕ) (months : ℚ) (dist : DistType)
    (s : ℕ) (lr : LossResult) (s₂ : ℕ)
    (hc : compute_expected_economic_loss g cm sim forecast inv q lead months dist s =
      .ok (lr, s₂)) :
    lr.total_expected_loss = lr.expected_overstock_cost + lr.expected_understock_cost := by
  rw [compute_expected_economic_loss] at hc
  split at hc
  · exact absurd hc (by simp)
  · rw [Except.ok.injEq, Prod.mk.injEq] at hc
    obtain ⟨hlr, hs⟩ := hc
    subst hlr
    rfl

/-- Every evaluation entry produced by the optimizer's candidate loop records
a penalized loss of 11 times (ceiling exceeded) or 1 times (within the
ceiling) its unpenalized loss. -/
theorem evalQuantities_spec (g : DrawStream) (cfg : OptimizerConfig)
    (forecast : List ForecastRow) (inv : ℚ) (lead : ℕ) (months : ℚ) (dist : DistType) :
    ∀ (qs : List ℚ) (s : ℕ) (evals : List Evaluation) (s₁ : ℕ),
      evalQuantities g cfg forecast inv lead months dist qs s = .ok (evals, s₁) →
      ∀ e ∈ evals,
        e.total_loss =
          (if cfg.max_stockout_probability < e.stockout_probability then 11 else 1) *
            (e.overstock_cost + e.understock_cost) := by
  intro qs
  induction qs with
  | nil =>
    intro s evals s₁ h e he
    rw [evalQuantities, Except.ok.injEq, Prod.mk.injEq] at h
    obtain ⟨hevals, _⟩ := h
    subst hevals
    simp at he
  | cons qty qs ih =>
    intro s evals s₁ h e he
    rw [evalQuantities] at h
    split at h
    · exact absurd h (by simp)
    · rename_i lossRes lossS hc
      split at h
      · exact absurd h (by simp)
      · rename_i riskRes riskS hr
        split at h
        · exact absurd h (by simp)
        · rename_i rest restS hrest
          rw [Except.ok.injEq, Prod.mk.injEq] at h
          obtain ⟨hevals, _⟩ := h
          subst hevals
          rcases List.mem_cons.mp he with he | he
          · subst he
            have htot := compute_loss_total_eq g cfg.cost_model cfg.sim forecast inv qty
              lead months dist s lossRes lossS hc
            dsimp only
            rw [htot]
            by_cases hpen : cfg.max_stockout_probability < riskRes.stockout_probability
            · rw [if_pos hpen, if_pos hpen]
              ring
            · rw [if_neg hpen, if_neg hpen]
              ring
          · exact ih riskS rest restS hrest e he

/-! ## Claim C3 -/

/-- C3, counterexample: a candidate of 10 units against a certain demand of
100 from zero inventory has unpenalized expected loss 90 and stockout
probability 1 (above the 0.20 ceiling), and `optimize_reorder` records a
penalized loss of 990 — eleven times the unpenalized loss, not ten times as
claimed (the code *adds* a penalty of `10 × loss` to the loss). -/
theorem C3_counterexample :
    Except.map
        (fun p => p.1.all_evaluations.map fun e =>
          (e.stockout_probability, e.total_loss, e.overstock_cost + e.understock_cost))
        (optimize_reorder gZero cfgUnit forecastC3 0 1 10 10 1 none 1 .normal 10 0) =
      .ok [(1, 990, 0 + 90)] ∧
    (1 / 5 : ℚ) < 1 ∧ (990 : ℚ) ≠ 10 * (0 + 90) := by
  refine ⟨?_, by norm_num, by norm_num⟩
  have hfeas :
      find_feasible_order_quantities cfgUnit.cost_model.unit_cost 10 10 1 none 10 = [10] := by
    rw [find_feasible_order_quantities]
    norm_num [pyRound, List.range_succ, List.filterMap_cons, cfgUnit, cmUnit]
  rw [optimize_reorder, hfeas]
  norm_num [evalQuantities, compute_expected_economic_loss, estimate_risk_with_reorder,
    simulate_inventory_depletion, runTrials, demandPathAux, sampleDemand, depleteAux,
    trialCosts, compute_overstock_cost, compute_understock_cost, CostModel.margin_per_unit,
    npMean, categorize_risk, cfgUnit, cmUnit, forecastC3, gZero, Except.map,
    List.countP_cons, List.countP_nil, List.mergeSort_singleton]

/-- C3 (amended): in `ReorderOptimizer.optimize_reorder`, every evaluated
candidate whose stockout probability exceeds `max_stockout_probability` has a
recorded penalized loss of *eleven* times its unpenalized total expected loss
(the loss plus an added penalty of ten times the loss); candidates at or below
the ceiling keep their unpenalized loss. -/
theorem C3_penalty (g : DrawStream) (cfg : OptimizerConfig) (forecast : List ForecastRow)
    (inv : ℚ) (lead : ℕ) (minQ maxQ mult : ℚ) (cash : Option ℚ) (months : ℚ)
    (dist : DistType) (step : ℚ) (s : ℕ) (res : OptimizationResult) (s₁ : ℕ)
    (h : optimize_reorder g cfg forecast inv lead minQ maxQ mult cash months dist step s =
      .ok (res, s₁)) :
    ∀ e ∈ res.all_evaluations,
      e.total_loss =
        (if cfg.max_stockout_probability < e.stockout_probability then 11 else 1) *
          (e.overstock_cost + e.understock_cost) := by
  rw [optimize_reorder] at h
  split at h
  · rw [Except.ok.injEq, Prod.mk.injEq] at h
    obtain ⟨hres, _⟩ := h
    subst hres
    intro e he
    simp [noFeasibleResult] at he
  · split at h
    · exact absurd h (by simp)
    · rename_i evaluations evalS hev
      split at h
      · rw [Except.ok.injEq, Prod.mk.injEq] at h
        obtain ⟨hres, _⟩ := h
        subst hres
        intro e he
        simp [noFeasibleResult] at he
      · rename_i optimal rest hsort
        rw [Except.ok.injEq, Prod.mk.injEq] at h
        obtain ⟨hres, _⟩ := h
        subst hres
        intro e he
        have hmem : e ∈ evaluations.mergeSort fun a b => a.total_loss ≤ b.total_loss := by
          rw [hsort]
          exact he
        exact evalQuantities_spec g cfg forecast inv lead months dist _ s evaluations
          evalS hev e (List.mem_mergeSort.mp hmem)

/-- C3, witness: the single evaluation of the counterexample run satisfies the
eleven-times relationship. -/
theorem C3_witness :
    evalC3.total_loss =
      (if cfgUnit.max_stockout_probability < evalC3.stockout_probability then 11 else 1) *
        (evalC3.overstock_cost + evalC3.understock_cost) :=
  C3_penalty gZero cfgUnit forecastC3 0 1 10 10 1 none 1 .normal 10 0 resC3 2
    (by
      have hfeas :
          find_feasible_order_quantities cfgUnit.cost_model.unit_cost 10 10 1 none 10 =
            [10] := by
        rw [find_feasible_order_quantities]
        norm_num [pyRound, List.range_succ, List.filterMap_cons, cfgUnit, cmUnit]
      rw [optimize_reorder, hfeas]
      norm_num [evalQuantities, compute_expected_economic_loss, estimate_risk_with_reorder,
        simulate_inventory_depletion, runTrials, demandPathAux, sampleDemand, depleteAux,
        trialCosts, compute_overstock_cost, compute_understock_cost,
        CostModel.margin_per_unit, npMean, categorize_risk, cfgUnit, cmUnit, forecastC3,
        gZero, List.countP_cons, List.countP_nil, List.mergeSort_singleton, resC3, evalC3])
    evalC3 (by simp [resC3])

/-- Sampling depends on the stream only through the draw at the cursor. -/
theorem sampleDemand_fst_congr (g₁ g₂ : DrawStream) (dist : DistType) (row : ForecastRow)
    (s₁ s₂ : ℕ) (h : g₁ s₁ = g₂ s₂) :
    (sampleDemand g₁ dist row s₁).1 = (sampleDemand g₂ dist row s₂).1 := by
  cases dist
  · simp [sampleDemand, h]
  · simp [sampleDemand, h]

/-- A sampled path depends on the stream only through the consumed segment. -/
theorem demandPathAux_fst_congr (g₁ g₂ : DrawStream) (dist : DistType) :
    ∀ (rows : List ForecastRow) (s₁ s₂ : ℕ),
      (∀ i, i < rows.length → g₁ (s₁ + i) = g₂ (s₂ + i)) →
      (demandPathAux g₁ dist rows s₁).1 = (demandPathAux g₂ dist rows s₂).1 := by
  intro rows
  induction rows with
  | nil => intro s₁ s₂ h; rfl
  | cons row rows ih =>
    intro s₁ s₂ h
    have h0 : g₁ s₁ = g₂ s₂ := by simpa using h 0 (by simp)
    simp only [demandPathAux]
    congr 1
    · exact sampleDemand_fst_congr g₁ g₂ dist row s₁ s₂ h0
    · rw [sampleDemand_snd, sampleDemand_snd]
      refine ih (s₁ + 1) (s₂ + 1) ?_
      intro i hi
      have hstep := h (i + 1) (by simp [List.length_cons]; omega)
      have e₁ : s₁ + 1 + i = s₁ + (i + 1) := by omega
      have e₂ : s₂ + 1 + i = s₂ + (i + 1) := by omega
      rw [e₁, e₂]
      exact hstep

/-- A Monte Carlo run depends on the stream only through the consumed
segment of `n_simulations * lead_time_days` draws. -/
theorem runTrials_fst_congr (g₁ g₂ : DrawStream) (dist : DistType) (rows : List ForecastRow)
    (inv₀ : ℚ) :
    ∀ (n s₁ s₂ : ℕ),
      (∀ i, i < n * rows.length → g₁ (s₁ + i) = g₂ (s₂ + i)) →
      (runTrials g₁ dist rows inv₀ n s₁).1 = (runTrials g₂ dist rows inv₀ n s₂).1 := by
  intro n
  induction n with
  | zero => intro s₁ s₂ h; rfl
  | succ n ih =>
    intro s₁ s₂ h
    have hpath : (demandPathAux g₁ dist rows s₁).1 = (demandPathAux g₂ dist rows s₂).1 :=
      demandPathAux_fst_congr g₁ g₂ dist rows s₁ s₂
        (fun i hi => h i (by rw [Nat.succ_mul]; omega))
    simp only [runTrials]
    congr 1
    · rw [hpath]
    · rw [demandPathAux_snd, demandPathAux_snd]
      refine ih (s₁ + rows.length) (s₂ + rows.length) ?_
      intro i hi
      have hstep := h (rows.length + i) (by rw [Nat.succ_mul]; omega)
      have e₁ : s₁ + rows.length + i = s₁ + (rows.length + i) := by omega
      have e₂ : s₂ + rows.length + i = s₂ + (rows.length + i) := by omega
      rw [e₁, e₂]
      exact hstep

/-! ## Claim C1 -/

/-- C1, counterexample: one simulator instance (seed fixed at construction,
i.e. one stream), two successive calls to `simulate_inventory_depletion` with
identical inputs: the second call resumes the advanced RNG cursor, draws a
different value, and returns a different SimulationBatch ([5] versus [6]
cumulative demand, ending inventory 5 versus 4). -/
theorem C1_counterexample :
    Except.map (fun p => p.1)
        (simulate_inventory_depletion gId { n_simulations := 1 } [rowC1] 10 1 .normal 0) ≠
      Except.map (fun p => p.1)
        (simulate_inventory_depletion gId { n_simulations := 1 } [rowC1] 10 1 .normal 1) := by
  norm_num [simulate_inventory_depletion, runTrials, demandPathAux, sampleDemand,
    depleteAux, rowC1, gId, Except.map, List.countP_cons, List.countP_nil,
    SimBatch.mk.injEq]

/-- C1 (amended): the simulator's output is a deterministic function of the
draw stream segment it consumes and of its inputs: two successive calls with
identical inputs return identical SimulationBatches precisely when the stream
repeats over the two consumed segments of `n_simulations * lead_time_days`
draws (here stated as: segment equality implies equal batches).  Re-seeding —
reconstructing the simulator — before each call restores this segment
equality; merely repeating the call on one instance advances the cursor and in
general does not, as the counterexample shows. -/
theorem C1_deterministic_replay (g : DrawStream) (sim : SimConfig)
    (forecast : List ForecastRow) (inv : ℚ) (lead : ℕ) (dist : DistType) (s : ℕ)
    (b₁ : SimBatch) (s₁ : ℕ) (b₂ : SimBatch) (s₂ : ℕ)
    (h₁ : simulate_inventory_depletion g sim forecast inv lead dist s = .ok (b₁, s₁))
    (h₂ : simulate_inventory_depletion g sim forecast inv lead dist s₁ = .ok (b₂, s₂))
    (hg : ∀ i, i < sim.n_simulations * lead → g (s + i) = g (s₁ + i)) :
    b₁ = b₂ := by
  rw [simulate_inventory_depletion] at h₁ h₂
  by_cases hguard : forecast.length < lead
  · rw [if_pos hguard] at h₁
    exact absurd h₁ (by simp)
  · rw [if_neg hguard] at h₁ h₂
    have hlen : (forecast.take lead).length = lead := by
      rw [List.length_take]
      omega
    rw [Except.ok.injEq, Prod.mk.injEq] at h₁ h₂
    obtain ⟨hb₁, hs₁⟩ := h₁
    obtain ⟨hb₂, hs₂⟩ := h₂
    have htrials :
        (runTrials g dist (forecast.take lead) inv sim.n_simulations s).1 =
          (runTrials g dist (forecast.take lead) inv sim.n_simulations s₁).1 := by
      refine runTrials_fst_congr g g dist (forecast.take lead) inv sim.n_simulations s s₁ ?_
      intro i hi
      rw [hlen] at hi
      exact hg i hi
    rw [← hb₁, ← hb₂, htrials]

/-- C1, witness: on a constant stream the segment-equality hypothesis holds
definitionally, and the theorem yields equal batches for two successive
calls. -/
theorem C1_witness : c1FirstBatch = c1SecondBatch :=
  C1_deterministic_replay gZero { n_simulations := 1 } [rowC1] 10 1 .normal 0
    c1FirstBatch 1 c1SecondBatch 2
    (by
      norm_num [simulate_inventory_depletion, runTrials, demandPathAux, sampleDemand,
        depleteAux, rowC1, gZero, List.countP_cons, List.countP_nil, c1FirstBatch])
    (by
      norm_num [simulate_inventory_depletion, runTrials, demandPathAux, sampleDemand,
        depleteAux, rowC1, gZero, List.countP_cons, List.countP_nil, c1SecondBatch])
    (fun i hi => rfl)

/-- The greedy walk never lets its cumulative spend exceed the budget it was
started under: each funding branch is guarded by exactly the bound it adds. -/
theorem greedy_walk_le (total_available_cash : ℚ) :
    ∀ (rows : List SkuMetrics) (acc : List (String × SkuAllocation) × ℚ × List String),
      acc.2.1 ≤ total_available_cash →
      (rows.foldl (greedyStep total_available_cash) acc).2.1 ≤ total_available_cash := by
  intro rows
  induction rows with
  | nil => intro acc h; simpa using h
  | cons row rows ih =>
    intro acc h
    rw [List.foldl_cons]
    refine ih _ ?_
    obtain ⟨allocations, used, order⟩ := acc
    simp only [greedyStep]
    split
    · rename_i hfull
      simpa using hfull
    · split
      · rename_i hbase
        simpa using hbase
      · simpa using h

/-- Evaluation of the concrete single-SKU allocator run used by the C2
counterexample and witness: baseline 10 units, optimizer pinned to 20 units at
unit cost 1, budget 10. -/
theorem allocateC2_eval :
    allocate_capital gZero (fun _ => cfgUnit) [skuC2] 10 (fun _ => 10) 0 =
      .ok (planC2, 3) := by
  have hfeas : find_feasible_order_quantities 1 20 20 1 none 10 = [20] := by
    rw [find_feasible_order_quantities]
    norm_num [pyRound, List.range_succ, List.filterMap_cons, cfgUnit, cmUnit]
  norm_num [allocate_capital, rank_skus_by_efficiency, rankAux,
    compute_loss_avoided_per_rupee, optimize_reorder, hfeas, evalQuantities,
    compute_expected_economic_loss, estimate_risk_with_reorder,
    simulate_inventory_depletion, runTrials, demandPathAux, sampleDemand, depleteAux,
    trialCosts, compute_overstock_cost, compute_understock_cost, CostModel.margin_per_unit,
    npMean, categorize_risk, lossAvoidedOf, lossAvoidedPerRupee, greedyStep,
    skuC2, cfgUnit, cmUnit, gZero, planC2, List.countP_cons, List.countP_nil,
    List.mergeSort_singleton, WithTop.recTopCoe_coe, WithBot.recBotCoe_coe]
  constructor
  · rw [show (20 : WithTop ℚ) = ((20 : ℚ) : WithTop ℚ) from rfl, WithTop.recTopCoe_coe]
    norm_num
  · rw [show (20 : WithTop ℚ) = ((20 : ℚ) : WithTop ℚ) from rfl, WithTop.recTopCoe_coe]
    rw [show ((10 - 20 : ℚ) : WithBot ℚ) = ((-10 : ℚ) : WithBot ℚ) by norm_num]
    rw [WithBot.recBotCoe_coe]
    norm_num

/-! ## Claim C2 -/

/-- C2, counterexample: one SKU with baseline quantity 10 and optimal quantity
20 at unit cost 1, budget 10.  The greedy check passes because only the
*incremental* cash (10) is charged against the budget, but the allocation
records the gross `optimal_cash` of 20 in its `cash` field — the sum of the
recorded cash fields (20) exceeds `total_available_cash` (10). -/
theorem C2_counterexample :
    Except.map
        (fun p => ((p.1.allocations.map fun a => a.2.cash).sum, p.1.total_cash_used))
        (allocate_capital gZero (fun _ => cfgUnit) [skuC2] 10 (fun _ => 10) 0) =
      .ok (20, 10) ∧
    ¬ ((20 : ℚ) ≤ 10) := by
  constructor
  · rw [allocateC2_eval]
    norm_num [planC2, Except.map]
  · norm_num

/-- C2 (amended): for every allocator run with a non-negative
`total_available_cash`, the returned `total_cash_used` — which charges fully
funded items their *incremental* cash (optimal minus baseline) and
baseline-funded items their baseline cash — never exceeds
`total_available_cash`.  The per-item `cash` fields record gross order cost
(quantity times unit cost), and their sum can exceed the budget when baseline
quantities are nonzero, as the counterexample shows. -/
theorem C2_conservation (g : DrawStream) (optimizers : String → OptimizerConfig)
    (sku_data : List SkuData) (total_available_cash : ℚ) (baselines : String → ℚ)
    (s : ℕ) (plan : AllocationPlan) (s₁ : ℕ) (hcash : 0 ≤ total_available_cash)
    (h : allocate_capital g optimizers sku_data total_available_cash baselines s =
      .ok (plan, s₁)) :
    plan.total_cash_used ≤ total_available_cash := by
  rw [allocate_capital] at h
  split at h
  · exact absurd h (by simp)
  · rename_i rankings rankS hrank
    rw [Except.ok.injEq, Prod.mk.injEq] at h
    obtain ⟨hplan, _⟩ := h
    subst hplan
    exact greedy_walk_le total_available_cash rankings ([], 0, []) (by simpa using hcash)

/-- C2, witness: in the concrete run the recorded `total_cash_used` of 10
respects the budget of 10. -/
theorem C2_witness : planC2.total_cash_used ≤ 10 :=
  C2_conservation gZero (fun _ => cfgUnit) [skuC2] 10 (fun _ => 10) 0 planC2 3
    (by norm_num) allocateC2_eval

/-- Per-size quantities are clamped at zero. -/
theorem sizeQty_nonneg (m t : ℤ) (share : ℚ) : 0 ≤ sizeQty m t share :=
  le_max_left 0 _

/-- Per-size quantities are multiples of the order multiple (trivial for
multiple 1; by construction of the floor-to-multiple step otherwise). -/
theorem dvd_sizeQty (m t : ℤ) (share : ℚ) (hm : 1 ≤ m) : m ∣ sizeQty m t share := by
  simp only [sizeQty]
  by_cases h : 1 < m
  · rw [if_pos h]
    rcases max_choice 0 ((pyRound ((t : ℚ) * share)).fdiv m * m) with hmax | hmax <;> rw [hmax]
    · exact dvd_zero m
    · exact dvd_mul_left m _
  · have hm1 : m = 1 := le_antisymm (not_lt.mp h) hm
    rw [hm1]
    exact one_dvd _

/-- Entries of the reconciled curve at keys other than the reconciled one come
unchanged from the original curve. -/
theorem updateAssoc_mem_of_ne :
    ∀ (c : List (String × ℤ)) (key : String) (diff : ℤ) (p : String × ℤ),
      p ∈ updateAssoc c key diff → p.1 ≠ key → p ∈ c := by
  intro c key diff
  induction c with
  | nil => intro p hp _; simp [updateAssoc] at hp
  | cons kv rest ih =>
    intro p hp hne
    obtain ⟨k, v⟩ := kv
    simp only [updateAssoc] at hp
    by_cases hk : k = key
    · rw [if_pos hk] at hp
      rcases List.mem_cons.mp hp with h | h
      · subst h
        exact absurd hk hne
      · exact List.mem_cons_of_mem _ h
    · rw [if_neg hk] at hp
      rcases List.mem_cons.mp hp with h | h
      · subst h
        exact List.mem_cons_self _ _
      · exact List.mem_cons_of_mem _ (ih p h hne)

/-- Reconciliation preserves non-negativity (the adjusted entry is clamped at
zero). -/
theorem updateAssoc_nonneg :
    ∀ (c : List (String × ℤ)) (key : String) (diff : ℤ), (∀ q ∈ c, 0 ≤ q.2) →
      ∀ p ∈ updateAssoc c key diff, 0 ≤ p.2 := by
  intro c key diff
  induction c with
  | nil => intro _ p hp; simp [updateAssoc] at hp
  | cons kv rest ih =>
    intro hq p hp
    obtain ⟨k, v⟩ := kv
    simp only [updateAssoc] at hp
    by_cases hk : k = key
    · rw [if_pos hk] at hp
      rcases List.mem_cons.mp hp with h | h
      · subst h
        exact le_max_left 0 _
      · exact hq p (List.mem_cons_of_mem _ h)
    · rw [if_neg hk] at hp
      rcases List.mem_cons.mp hp with h | h
      · subst h
        exact hq (k, v) (List.mem_cons_self _ _)
      · exact ih (fun q hq' => hq q (List.mem_cons_of_mem _ hq')) p h

/-- Reconciliation preserves divisibility when the remainder itself is
divisible. -/
theorem updateAssoc_dvd (m : ℤ) :
    ∀ (c : List (String × ℤ)) (key : String) (diff : ℤ), (∀ q ∈ c, m ∣ q.2) → m ∣ diff →
      ∀ p ∈ updateAssoc c key diff, m ∣ p.2 := by
  intro c key diff
  induction c with
  | nil => intro _ _ p hp; simp [updateAssoc] at hp
  | cons kv rest ih =>
    intro hq hdiff p hp
    obtain ⟨k, v⟩ := kv
    simp only [updateAssoc] at hp
    by_cases hk : k = key
    · rw [if_pos hk] at hp
      rcases List.mem_cons.mp hp with h | h
      · subst h
        rcases max_choice 0 (v + diff) with hmax | hmax <;> simp only [hmax]
        · exact dvd_zero m
        · exact dvd_add (hq (k, v) (List.mem_cons_self _ _)) hdiff
      · exact hq p (List.mem_cons_of_mem _ h)
    · rw [if_neg hk] at hp
      rcases List.mem_cons.mp hp with h | h
      · subst h
        exact hq (k, v) (List.mem_cons_self _ _)
      · exact ih (fun q hq' => hq q (List.mem_cons_of_mem _ hq')) hdiff p h

/-- Sum of the reconciled curve in terms of the value held at the reconciled
key. -/
theorem updateAssoc_sum :
    ∀ (c : List (String × ℤ)) (key : String) (diff v : ℤ), lookupAssoc c key = some v →
      ((updateAssoc c key diff).map (·.2)).sum =
        (c.map (·.2)).sum - v + max 0 (v + diff) := by
  intro c key diff
  induction c with
  | nil => intro v hv; simp [lookupAssoc] at hv
  | cons kv rest ih =>
    intro v hv
    obtain ⟨k, w⟩ := kv
    simp only [lookupAssoc] at hv
    simp only [updateAssoc]
    by_cases hk : k = key
    · rw [if_pos hk] at hv ⊢
      rw [Option.some.injEq] at hv
      subst hv
      simp only [List.map_cons, List.sum_cons]
      ring
    · rw [if_neg hk] at hv ⊢
      simp only [List.map_cons, List.sum_cons, ih v hv]
      ring

/-- Every entry of a generated curve is non-negative. -/
theorem genCurve_nonneg (dist : List (String × ℚ)) (m t : ℤ) :
    ∀ p ∈ genCurve dist m t, 0 ≤ p.2 := by
  intro p hp
  have hbase : ∀ q ∈ dist.map fun x => (x.1, sizeQty m t x.2), 0 ≤ q.2 := by
    intro q hq
    obtain ⟨x, _, rfl⟩ := List.mem_map.mp hq
    exact sizeQty_nonneg m t x.2
  simp only [genCurve] at hp
  split at hp
  · exact hbase p hp
  · split at hp
    · exact hbase p hp
    · exact updateAssoc_nonneg _ _ _ hbase p hp

/-- Entries at keys other than the largest-share one are multiples of the
order multiple. -/
theorem genCurve_dvd_of_ne (dist : List (String × ℚ)) (m t : ℤ) (L : String)
    (hm : 1 ≤ m) (hL : largestKey dist = some L) :
    ∀ p ∈ genCurve dist m t, p.1 ≠ L → m ∣ p.2 := by
  intro p hp hne
  have hbase : ∀ q ∈ dist.map fun x => (x.1, sizeQty m t x.2), m ∣ q.2 := by
    intro q hq
    obtain ⟨x, _, rfl⟩ := List.mem_map.mp hq
    exact dvd_sizeQty m t x.2 hm
  simp only [genCurve, hL] at hp
  split at hp
  · exact hbase p hp
  · exact hbase p (updateAssoc_mem_of_ne _ L _ p hp hne)

/-- When the order multiple divides the total, every entry of the generated
curve is a multiple of it. -/
theorem genCurve_dvd_all (dist : List (String × ℚ)) (m t : ℤ) (hm : 1 ≤ m) (ht : m ∣ t) :
    ∀ p ∈ genCurve dist m t, m ∣ p.2 := by
  intro p hp
  have hbase : ∀ q ∈ dist.map fun x => (x.1, sizeQty m t x.2), m ∣ q.2 := by
    intro q hq
    obtain ⟨x, _, rfl⟩ := List.mem_map.mp hq
    exact dvd_sizeQty m t x.2 hm
  have halloc : m ∣ ((dist.map fun x => (x.1, sizeQty m t x.2)).map (·.2)).sum := by
    refine List.dvd_sum ?_
    intro x hx
    obtain ⟨q, hq, rfl⟩ := List.mem_map.mp hx
    exact hbase q hq
  simp only [genCurve] at hp
  split at hp
  · exact hbase p hp
  · split at hp
    · exact hbase p hp
    · exact updateAssoc_dvd m _ _ _ hbase (dvd_sub ht halloc) p hp

/-- When the reconciled value stays non-negative (no clamping), the generated
curve sums to its declared total. -/
theorem genCurve_sum (dist : List (String × ℚ)) (m t : ℤ) (L : String) (v : ℤ)
    (hL : largestKey dist = some L)
    (hv : lookupAssoc (dist.map fun p => (p.1, sizeQty m t p.2)) L = some v)
    (hnc : 0 ≤ v + (t - ((dist.map fun p => (p.1, sizeQty m t p.2)).map (·.2)).sum)) :
    ((genCurve dist m t).map (·.2)).sum = t := by
  simp only [genCurve, hL]
  split
  · rename_i hdiff
    omega
  · rw [updateAssoc_sum _ L _ v hv, max_eq_right hnc]
    ring

/-! ## Claim C6 -/

/-- C6, counterexample: five sizes with equal 20% shares (summing to 1),
`min_order_total = 3`, `order_multiple = 1`, `max_order_total = 3`.  Each size
rounds to 1 unit (5 allocated), the remainder −2 is reconciled onto the
largest-share size, whose 1 − 2 = −1 is clamped to 0 — so the returned curve
sums to 4, not to the declared total of 3. -/
theorem C6_counterexample :
    (generate_valid_size_curves dist5 3 1 (some 3)).map (fun c => (c.map (·.2)).sum) =
      [4] ∧
    (4 : ℤ) ≠ 3 := by
  constructor
  · have hpr : pyRound (((3 : ℤ) : ℚ) * (1 / 5)) = 1 := by
      rw [pyRound]
      norm_num
    have hq : sizeQty 1 3 (1 / 5 : ℚ) = 1 := by
      simp only [sizeQty, hpr]
      norm_num [max_def]
    norm_num [generate_valid_size_curves, genCurve, hq, largestKey, updateAssoc, dist5,
      List.range_succ, max_def]
  · norm_num

/-- C6 (amended): for every curve returned by `generate_valid_size_curves`
(order multiple at least 1), the curve is generated for a declared total `t`
of the stepped range and: every value is non-negative; every value at a size
other than the largest-share size is a multiple of the order multiple; if the
order multiple additionally divides `min_order_total` then *every* value is a
multiple of it; and the values sum to `t` provided the reconciled value at the
largest-share size stays non-negative (the clamp in the counterexample breaks
the sum, and a `min_order_total` not divisible by the multiple breaks the
multiple property at the reconciled size). -/
theorem C6_curve_invariant (size_distribution : List (String × ℚ))
    (min_order_total order_multiple : ℤ) (max_order_total : Option ℤ)
    (hm : 1 ≤ order_multiple) :
    ∀ curve ∈ generate_valid_size_curves size_distribution min_order_total order_multiple
        max_order_total,
      ∃ t : ℤ, curve = genCurve size_distribution order_multiple t ∧
        (∀ p ∈ curve, 0 ≤ p.2) ∧
        (∀ L, largestKey size_distribution = some L →
          ∀ p ∈ curve, p.1 ≠ L → order_multiple ∣ p.2) ∧
        (order_multiple ∣ min_order_total → ∀ p ∈ curve, order_multiple ∣ p.2) ∧
        (∀ L v, largestKey size_distribution = some L →
          lookupAssoc
              (size_distribution.map fun p => (p.1, sizeQty order_multiple t p.2)) L =
            some v →
          0 ≤ v + (t -
              ((size_distribution.map fun p => (p.1, sizeQty order_multiple t p.2)).map
                  (·.2)).sum) →
          (curve.map (·.2)).sum = t) := by
  intro curve hc
  unfold generate_valid_size_curves at hc
  obtain ⟨k, _, rfl⟩ := List.mem_map.mp hc
  refine ⟨min_order_total + (k : ℤ) * order_multiple, rfl,
    genCurve_nonneg size_distribution order_multiple _,
    fun L hL => genCurve_dvd_of_ne size_distribution order_multiple _ L hm hL,
    fun hdvd => genCurve_dvd_all size_distribution order_multiple _ hm
      (dvd_add hdvd (dvd_mul_left order_multiple _)),
    fun L v hL hv hnc => genCurve_sum size_distribution order_multiple _ L v hL hv hnc⟩

/-- C6, witness: a 60/40 two-size distribution with multiple 2 and total 10
generates the curve A ↦ 6, B ↦ 4, which satisfies all the invariants (the
remainder is 0, so no clamping occurs and the sum equals the total). -/
theorem C6_witness :
    ∃ t : ℤ, [("A", 6), ("B", 4)] = genCurve distW 2 t ∧
      (∀ p ∈ [(("A" : String), (6 : ℤ)), ("B", 4)], 0 ≤ p.2) ∧
      (∀ L, largestKey distW = some L →
        ∀ p ∈ [(("A" : String), (6 : ℤ)), ("B", 4)], p.1 ≠ L → 2 ∣ p.2) ∧
      ((2 : ℤ) ∣ 10 → ∀ p ∈ [(("A" : String), (6 : ℤ)), ("B", 4)], 2 ∣ p.2) ∧
      (∀ L v, largestKey distW = some L →
        lookupAssoc (distW.map fun p => (p.1, sizeQty 2 t p.2)) L = some v →
        0 ≤ v + (t - ((distW.map fun p => (p.1, sizeQty 2 t p.2)).map (·.2)).sum) →
        (([(("A" : String), (6 : ℤ)), ("B", 4)].map (·.2)).sum = t)) :=
  C6_curve_invariant distW 10 2 (some 10) (by norm_num) [("A", 6), ("B", 4)]
    (by
      have hprA : pyRound (((10 : ℤ) : ℚ) * (3 / 5)) = 6 := by
        rw [pyRound]
        norm_num
      have hprB : pyRound (((10 : ℤ) : ℚ) * (2 / 5)) = 4 := by
        rw [pyRound]
        norm_num
      have hqA : sizeQty 2 10 (3 / 5 : ℚ) = 6 := by
        simp only [sizeQty, hprA]
        norm_num [max_def, Int.fdiv]
      have hqB : sizeQty 2 10 (2 / 5 : ℚ) = 4 := by
        simp only [sizeQty, hprB]
        norm_num [max_def, Int.fdiv]
      norm_num [generate_valid_size_curves, genCurve, hqA, hqB, largestKey, distW,
        List.range_succ])

end StockPilot
